import Mathlib

set_option maxRecDepth 40000

/-!
Verification development for the lane-based endless-runner game in
src/subway_runner.py.  The per-frame simulation (class Game, class Player,
class Obstacle, class Coin, class PowerUp, class Particle) is shallowly
embedded below.  Conventions:

* Python ints are modelled as Int (Nat for the lane index, which the code
  keeps in 0..2 by explicit guards); Python floats are modelled as exact
  rationals.  Python floor division (//) on the nonnegative operands used
  by the code agrees with Int division here.
* math.sqrt is a floating-point operation; it is modelled as an oracle
  function sqrtA supplied per frame, and theorems that depend on the
  distance constrain it to be an exact square root at the relevant input.
* All randomness (random.randint, random.random, random.choice,
  random.uniform) is modelled by an Oracle record supplying the drawn
  values for one frame.
* Rendering, audio (play_sound and the sound fields) and the wall-clock
  driven cosmetic fields (bob_offset, bob_speed, the pulse phase drawn
  from pygame.time.get_ticks) are external collaborators with no feedback
  into simulation state and are not part of the state.
* pygame.Rect truncates float coordinates toward zero on construction and
  colliderect tests strict overlap of half-open boxes; both are modelled
  below (pyInt, rectsCollide).
-/

/-- SCREEN_WIDTH constant from the source. -/
def SCREEN_WIDTH : Int := 800

/-- SCREEN_HEIGHT constant from the source. -/
def SCREEN_HEIGHT : Int := 600

/-- LANE_WIDTH = SCREEN_WIDTH // 3. -/
def LANE_WIDTH : Int := SCREEN_WIDTH / 3

/-- LANE_POSITIONS: the three lane center x coordinates. -/
def LANE_POSITIONS : List Int :=
  [LANE_WIDTH / 2, SCREEN_WIDTH / 2, SCREEN_WIDTH - LANE_WIDTH / 2]

/-- Indexing LANE_POSITIONS (the code only ever indexes with 0, 1 or 2). -/
def lanePos (lane : Nat) : Int := LANE_POSITIONS.getD lane 0

/-- RGB color triple (cosmetic payload carried by particles). -/
abbrev Color := Nat × Nat × Nat

def RED : Color := (255, 0, 0)
def GREEN : Color := (0, 255, 0)
def YELLOW : Color := (255, 255, 0)
def PURPLE : Color := (128, 0, 128)
def CYAN : Color := (0, 255, 255)

/-- CPython int() / pygame.Rect coordinate conversion: truncation toward
zero of a float, modelled on rationals. -/
def pyInt (q : ℚ) : Int := if 0 ≤ q then q.floor else -((-q).floor)

/-- A pygame.Rect: x, y, width, height (integer coordinates). -/
structure Rect where
  x : Int
  y : Int
  w : Int
  h : Int
deriving DecidableEq, Repr

/-- pygame Rect.colliderect: strict overlap test of the two boxes. -/
def rectsCollide (a b : Rect) : Bool :=
  decide (a.x < b.x + b.w) && decide (a.x + a.w > b.x) &&
  decide (a.y < b.y + b.h) && decide (a.y + a.h > b.y)

/-- Player state (class Player).  The wall-clock cosmetic fields
(bob_offset, bob_speed) are omitted; they never feed back into the
simulation. -/
structure Player where
  width : Int
  height : Int
  current_lane : Nat
  x : Int
  y : Int
  move_speed : Int
  moving : Bool
  target_x : Int
  invulnerable : Bool
  invulnerable_timer : Int
  flash_timer : Int
deriving DecidableEq, Repr

/-- Player.__init__. -/
def playerInit : Player :=
  { width := 40
    height := 60
    current_lane := 1
    x := lanePos 1 - 40 / 2
    y := SCREEN_HEIGHT - 150
    move_speed := 12
    moving := false
    target_x := lanePos 1 - 40 / 2
    invulnerable := false
    invulnerable_timer := 0
    flash_timer := 0 }

/-- Player.move_left (the sound side effect is external). -/
def moveLeft (p : Player) : Player :=
  if 0 < p.current_lane ∧ p.moving = false then
    { p with current_lane := p.current_lane - 1
             target_x := lanePos (p.current_lane - 1) - p.width / 2
             moving := true }
  else p

/-- Player.move_right (the sound side effect is external). -/
def moveRight (p : Player) : Player :=
  if p.current_lane < 2 ∧ p.moving = false then
    { p with current_lane := p.current_lane + 1
             target_x := lanePos (p.current_lane + 1) - p.width / 2
             moving := true }
  else p

/-- Player.update lines 76-84: move toward target_x, snapping and
clearing the moving flag once the remaining distance is below one step. -/
def moveStep (p : Player) : Player :=
  if p.moving then
    if |p.x - p.target_x| < p.move_speed then
      { p with x := p.target_x, moving := false }
    else if p.x < p.target_x then
      { p with x := p.x + p.move_speed }
    else
      { p with x := p.x - p.move_speed }
  else p

/-- Player.update lines 90-95: the invulnerability countdown. -/
def invulStep (p : Player) : Player :=
  if p.invulnerable then
    if p.invulnerable_timer - 1 ≤ 0 then
      { p with invulnerable := false, invulnerable_timer := p.invulnerable_timer - 1
               flash_timer := 0 }
    else
      { p with invulnerable_timer := p.invulnerable_timer - 1
               flash_timer := p.flash_timer + 1 }
  else p

/-- Player.update: smooth lane switching, then invulnerability countdown
(the bobbing update is wall-clock cosmetic and external). -/
def playerUpdate (p : Player) : Player := invulStep (moveStep p)

/-- Player.get_rect. -/
def playerRect (p : Player) : Rect := ⟨p.x, p.y, p.width, p.height⟩

/-- Obstacle kind strings. -/
inductive ObstacleType where
  | normal
  | spike
deriving DecidableEq, Repr

/-- Obstacle state (class Obstacle). -/
structure Obstacle where
  width : Int
  height : Int
  lane : Nat
  x : Int
  y : Int
  speed : Int
  otype : ObstacleType
  rotation : Int
deriving DecidableEq, Repr

/-- Obstacle.__init__. -/
def obstacleInit (lane : Nat) (t : ObstacleType) : Obstacle :=
  { width := 50, height := 50, lane := lane
    x := lanePos lane - 50 / 2, y := -50
    speed := 8, otype := t, rotation := 0 }

/-- Obstacle.update. -/
def obstacleUpdate (ob : Obstacle) : Obstacle :=
  { ob with y := ob.y + ob.speed, rotation := ob.rotation + 2 }

/-- Obstacle.get_rect: the inset collision rectangle. -/
def obstacleRect (ob : Obstacle) : Rect :=
  ⟨ob.x + 5, ob.y + 5, ob.width - 10, ob.height - 10⟩

/-- Obstacle.is_off_screen. -/
def obstacleOffScreen (ob : Obstacle) : Bool := decide (ob.y > SCREEN_HEIGHT)

/-- Coin state (class Coin); x and y become fractional under magnet
attraction, hence rationals.  The wall-clock bob_offset is omitted. -/
structure Coin where
  width : Int
  height : Int
  lane : Nat
  x : ℚ
  y : ℚ
  speed : Int
  rotation : Int
deriving DecidableEq, Repr

/-- Coin.__init__. -/
def coinInit (lane : Nat) : Coin :=
  { width := 30, height := 30, lane := lane
    x := ((lanePos lane - 30 / 2 : Int) : ℚ), y := -30
    speed := 8, rotation := 0 }

/-- Coin.update. -/
def coinUpdate (c : Coin) : Coin :=
  { c with y := c.y + (c.speed : ℚ), rotation := c.rotation + 5 }

/-- Coin.get_rect (pygame.Rect truncates the float coordinates). -/
def coinRect (c : Coin) : Rect := ⟨pyInt c.x, pyInt c.y, c.width, c.height⟩

/-- Coin.is_off_screen. -/
def coinOffScreen (c : Coin) : Bool := decide (c.y > (SCREEN_HEIGHT : ℚ))

/-- Power-up kind strings. -/
inductive PowerType where
  | shield
  | magnet
  | double_score
deriving DecidableEq, Repr

/-- PowerUp state (class PowerUp); the pulse phase is cosmetic but frame
driven, so it is kept. -/
structure PowerUp where
  width : Int
  height : Int
  lane : Nat
  x : Int
  y : Int
  speed : Int
  ptype : PowerType
  pulse : ℚ
deriving DecidableEq, Repr

/-- PowerUp.__init__. -/
def powerupInit (lane : Nat) (t : PowerType) : PowerUp :=
  { width := 40, height := 40, lane := lane
    x := lanePos lane - 40 / 2, y := -40
    speed := 8, ptype := t, pulse := 0 }

/-- PowerUp.update. -/
def powerupUpdate (pu : PowerUp) : PowerUp :=
  { pu with y := pu.y + pu.speed, pulse := pu.pulse + 1/5 }

/-- PowerUp.get_rect. -/
def powerupRect (pu : PowerUp) : Rect := ⟨pu.x, pu.y, pu.width, pu.height⟩

/-- PowerUp.is_off_screen. -/
def powerupOffScreen (pu : PowerUp) : Bool := decide (pu.y > SCREEN_HEIGHT)

/-- Particle state (class Particle). -/
structure Particle where
  x : ℚ
  y : ℚ
  color : Color
  velocity_x : ℚ
  velocity_y : ℚ
  life : Int
  max_life : Int
deriving DecidableEq, Repr

/-- Particle.__init__. -/
def particleInit (x y : ℚ) (c : Color) (vx vy : ℚ) : Particle :=
  { x := x, y := y, color := c, velocity_x := vx, velocity_y := vy
    life := 30, max_life := 30 }

/-- Particle.update. -/
def particleUpdate (pt : Particle) : Particle :=
  { pt with x := pt.x + pt.velocity_x, y := pt.y + pt.velocity_y
            life := pt.life - 1 }

/-- Particle.is_dead. -/
def particleIsDead (pt : Particle) : Bool := decide (pt.life ≤ 0)

/-- Game.create_particles: count particles at (x, y) whose random
velocities are supplied by the oracle list. -/
def createParticles (x y : ℚ) (c : Color) (vels : List (ℚ × ℚ)) (count : Nat) :
    List Particle :=
  (vels.take count).map fun v => particleInit x y c v.1 v.2

/-- Survival score for an obstacle that left the screen
(update_game lines 502-505): base 10, doubled under double score. -/
def survivalGain (double : Bool) : Int :=
  let g : Int := 10
  if double then g * 2 else g

/-- Coin collection score (update_game lines 616-618): base 50, doubled
under double score. -/
def coinGain (double : Bool) : Int :=
  let g : Int := 50
  if double then g * 2 else g

/-- Per-frame idle score (update_game lines 637-639): base 1, doubled
under double score. -/
def idleGain (double : Bool) : Int :=
  let g : Int := 1
  if double then g * 2 else g

/-- The whole mutable state of class Game that the simulation reads or
writes (screen, clock, fonts and sounds are external collaborators). -/
structure GameState where
  player : Player
  obstacles : List Obstacle
  coins : List Coin
  power_ups : List PowerUp
  particles : List Particle
  score : Int
  coins_collected : Int
  high_score : Int
  game_over : Bool
  background_y : Int
  speed_multiplier : ℚ
  obstacle_spawn_timer : Int
  obstacle_spawn_delay : ℚ
  coin_spawn_timer : Int
  coin_spawn_delay : Int
  powerup_spawn_timer : Int
  powerup_spawn_delay : Int
  shield_active : Bool
  shield_timer : Int
  magnet_active : Bool
  magnet_timer : Int
  double_score_active : Bool
  double_score_timer : Int
deriving DecidableEq, Repr

/-- Game.__init__ (the simulation-relevant fields). -/
def initGame : GameState :=
  { player := playerInit
    obstacles := []
    coins := []
    power_ups := []
    particles := []
    score := 0
    coins_collected := 0
    high_score := 0
    game_over := false
    background_y := 0
    speed_multiplier := 1
    obstacle_spawn_timer := 0
    obstacle_spawn_delay := 60
    coin_spawn_timer := 0
    coin_spawn_delay := 90
    powerup_spawn_timer := 0
    powerup_spawn_delay := 600
    shield_active := false
    shield_timer := 0
    magnet_active := false
    magnet_timer := 0
    double_score_active := false
    double_score_timer := 0 }

/-- One frame worth of random draws and the floating sqrt approximation:
everything update_game obtains from outside the game state. -/
structure Oracle where
  obstacleLane : Fin 3
  obstacleSpike : Bool
  coinLane : Fin 3
  powerupLane : Fin 3
  powerupType : PowerType
  sqrtA : ℚ → ℚ
  crashVels : List (ℚ × ℚ)
  destroyVels : List (ℚ × ℚ)
  magnetVels : Nat → List (ℚ × ℚ)
  coinVels : Nat → List (ℚ × ℚ)
  powerupVels : Nat → List (ℚ × ℚ)

/-- Game.activate_powerup. -/
def activatePowerup (t : PowerType) (s : GameState) : GameState :=
  match t with
  | PowerType.shield =>
      { s with shield_active := true, shield_timer := 300
               player := { s.player with invulnerable := true
                                         invulnerable_timer := 300 } }
  | PowerType.magnet =>
      { s with magnet_active := true, magnet_timer := 300 }
  | PowerType.double_score =>
      { s with double_score_active := true, double_score_timer := 300 }

/-- update_game lines 498-505: advance each obstacle, drop the ones past
the bottom edge, crediting the survival score for each. -/
def obstaclesAdvance (double : Bool) : List Obstacle → List Obstacle × Int
  | [] => ([], 0)
  | ob :: rest =>
    let ob2 := obstacleUpdate ob
    let r := obstaclesAdvance double rest
    if obstacleOffScreen ob2 then (r.1, survivalGain double + r.2)
    else (ob2 :: r.1, r.2)

/-- update_game lines 508-511: advance coins, drop off-screen ones. -/
def coinsAdvance : List Coin → List Coin
  | [] => []
  | c :: rest =>
    let c2 := coinUpdate c
    if coinOffScreen c2 then coinsAdvance rest else c2 :: coinsAdvance rest

/-- update_game lines 514-517: advance power-ups, drop off-screen ones. -/
def powerupsAdvance : List PowerUp → List PowerUp
  | [] => []
  | pu :: rest =>
    let pu2 := powerupUpdate pu
    if powerupOffScreen pu2 then powerupsAdvance rest
    else pu2 :: powerupsAdvance rest

/-- update_game lines 520-523: advance particles, drop dead ones. -/
def particlesAdvance : List Particle → List Particle
  | [] => []
  | pt :: rest =>
    let pt2 := particleUpdate pt
    if particleIsDead pt2 then particlesAdvance rest
    else pt2 :: particlesAdvance rest

/-- update_game lines 530-531: the difficulty ramp applied to the obstacle
spawn delay at every spawn event. -/
def nextObstacleDelay (d : ℚ) : ℚ := if 30 < d then d - 3/10 else d

/-- update_game lines 525-531: obstacle spawn timer and spawn. -/
def stageSpawnObstacle (o : Oracle) (s : GameState) : GameState :=
  let t := s.obstacle_spawn_timer + 1
  if (t : ℚ) ≥ s.obstacle_spawn_delay then
    { s with obstacles :=
               s.obstacles ++ [obstacleInit o.obstacleLane.val
                 (if o.obstacleSpike then ObstacleType.spike else ObstacleType.normal)]
             obstacle_spawn_timer := 0
             obstacle_spawn_delay := nextObstacleDelay s.obstacle_spawn_delay }
  else { s with obstacle_spawn_timer := t }

/-- update_game lines 534-537: coin spawn timer and spawn. -/
def stageSpawnCoin (o : Oracle) (s : GameState) : GameState :=
  let t := s.coin_spawn_timer + 1
  if t ≥ s.coin_spawn_delay then
    { s with coins := s.coins ++ [coinInit o.coinLane.val]
             coin_spawn_timer := 0 }
  else { s with coin_spawn_timer := t }

/-- update_game lines 540-543: power-up spawn timer and spawn. -/
def stageSpawnPowerup (o : Oracle) (s : GameState) : GameState :=
  let t := s.powerup_spawn_timer + 1
  if t ≥ s.powerup_spawn_delay then
    { s with power_ups := s.power_ups ++ [powerupInit o.powerupLane.val o.powerupType]
             powerup_spawn_timer := 0 }
  else { s with powerup_spawn_timer := t }

/-- update_game lines 546-549 (and the two identical blocks for magnet
and double score): one step of a power-up effect timer. -/
def tickEffect : Bool × Int → Bool × Int
  | (a, t) =>
    if a then
      let t2 := t - 1
      if t2 ≤ 0 then (false, t2) else (true, t2)
    else (a, t)

/-- update_game lines 545-559: decrement the three effect timers. -/
def tickTimers (s : GameState) : GameState :=
  let sh := tickEffect (s.shield_active, s.shield_timer)
  let mg := tickEffect (s.magnet_active, s.magnet_timer)
  let db := tickEffect (s.double_score_active, s.double_score_timer)
  { s with shield_active := sh.1, shield_timer := sh.2
           magnet_active := mg.1, magnet_timer := mg.2
           double_score_active := db.1, double_score_timer := db.2 }

/-- update_game lines 565-577: scan the obstacles in order against the
player rectangle; the loop breaks at the first overlap.  Returns the
surviving obstacle list, whether the fatal branch fired, and the obstacle
destroyed by an invulnerable player (if any). -/
def obstaclePass (pr : Rect) (invul : Bool) :
    List Obstacle → List Obstacle × Bool × Option Obstacle
  | [] => ([], false, none)
  | ob :: rest =>
    if rectsCollide pr (obstacleRect ob) then
      if invul then (rest, false, some ob)
      else (ob :: rest, true, none)
    else
      let r := obstaclePass pr invul rest
      (ob :: r.1, r.2.1, r.2.2)

/-- update_game lines 564-577 applied to the game state: game over plus
high score update on a fatal hit, obstacle destruction plus particles
under invulnerability. -/
def resolveObstacles (o : Oracle) (pr : Rect) (s : GameState) : GameState :=
  let r := obstaclePass pr s.player.invulnerable s.obstacles
  if r.2.1 then
    let crashParts :=
      createParticles ((s.player.x + 20 : Int) : ℚ) ((s.player.y + 30 : Int) : ℚ)
        RED o.crashVels 10
    { s with obstacles := r.1
             game_over := true
             particles := s.particles ++ crashParts
             high_score := if s.score > s.high_score then s.score else s.high_score }
  else
    match r.2.2 with
    | some ob =>
        let destroyParts :=
          createParticles ((ob.x + 25 : Int) : ℚ) ((ob.y + 25 : Int) : ℚ)
            CYAN o.destroyVels 8
        { s with obstacles := r.1
                 particles := s.particles ++ destroyParts }
    | none => { s with obstacles := r.1 }

/-- update_game lines 586-587: the player center. -/
def playerCenter (p : Player) : ℚ × ℚ :=
  (((p.x + p.width / 2 : Int) : ℚ), ((p.y + p.height / 2 : Int) : ℚ))

/-- update_game lines 588-589: the coin center (fractional once pulled). -/
def coinCenter (c : Coin) : ℚ × ℚ :=
  (c.x + ((c.width / 2 : Int) : ℚ), c.y + ((c.height / 2 : Int) : ℚ))

/-- update_game line 591: x offset from coin center to player center. -/
def coinDx (p : Player) (c : Coin) : ℚ := (playerCenter p).1 - (coinCenter c).1

/-- update_game line 592: y offset from coin center to player center. -/
def coinDy (p : Player) (c : Coin) : ℚ := (playerCenter p).2 - (coinCenter c).2

/-- update_game lines 584-610 for one coin: the magnet attraction step.
Returns (auto collected, coin after a possible pull, center of a pulled
coin for the attraction-trail particles).  The distance is the oracle
sqrt of the squared center distance, mirroring math.sqrt. -/
def coinStep (sqrtA : ℚ → ℚ) (magnet : Bool) (p : Player) (c : Coin) :
    Bool × Coin × Option (ℚ × ℚ) :=
  if magnet then
    let dx := coinDx p c
    let dy := coinDy p c
    let dist := sqrtA (dx * dx + dy * dy)
    if dist < 200 then
      if dist < 80 then (true, c, none)
      else if dist > 0 then
        let strength := min (3/2 : ℚ) (3 / (dist / 50))
        (false, { c with x := c.x + dx * strength, y := c.y + dy * strength },
         some (coinCenter c))
      else (false, c, none)
    else (false, c, none)
  else (false, c, none)

/-- update_game lines 580-621: the coin loop.  A coin is collected when
the magnet auto-collected it or the player rectangle overlaps the coin
rectangle captured at the top of the iteration; collection removes the
coin, counts it and credits the (possibly doubled) coin score.  Returns
(remaining coins, collected count, score gain, new particles). -/
def coinPass (sqrtA : ℚ → ℚ) (magnet double : Bool) (p : Player) (pr : Rect)
    (mv cv : Nat → List (ℚ × ℚ)) :
    Nat → List Coin → List Coin × Int × Int × List Particle
  | _, [] => ([], 0, 0, [])
  | i, c :: rest =>
    let cr := coinRect c
    let st := coinStep sqrtA magnet p c
    let pulledParts :=
      match st.2.2 with
      | some ctr => createParticles ctr.1 ctr.2 PURPLE (mv i) 3
      | none => []
    let r := coinPass sqrtA magnet double p pr mv cv (i + 1) rest
    let collectParts :=
      createParticles (st.2.1.x + 15) (st.2.1.y + 15) YELLOW (cv i) 6
    if st.1 || rectsCollide pr cr then
      (r.1, r.2.1 + 1, coinGain double + r.2.2.1,
       pulledParts ++ collectParts ++ r.2.2.2)
    else
      (st.2.1 :: r.1, r.2.1, r.2.2.1, pulledParts ++ r.2.2.2)

/-- update_game lines 624-629: the power-up loop; every overlapping
power-up is removed and its effect activated. -/
def powerupPass (pr : Rect) (pv : Nat → List (ℚ × ℚ)) :
    Nat → List PowerUp → GameState → List PowerUp × GameState
  | _, [], s => ([], s)
  | i, pu :: rest, s =>
    if rectsCollide pr (powerupRect pu) then
      let s := activatePowerup pu.ptype s
      let newParts :=
        createParticles ((pu.x + 20 : Int) : ℚ) ((pu.y + 20 : Int) : ℚ)
          GREEN (pv i) 8
      let s := { s with particles := s.particles ++ newParts }
      powerupPass pr pv (i + 1) rest s
    else
      let r := powerupPass pr pv (i + 1) rest s
      (pu :: r.1, r.2)

/-- update_game line 495. -/
def stagePlayer (s : GameState) : GameState :=
  { s with player := playerUpdate s.player }

/-- update_game lines 498-505 as a state transformer. -/
def stageObstaclesAdvance (s : GameState) : GameState :=
  let r := obstaclesAdvance s.double_score_active s.obstacles
  { s with obstacles := r.1, score := s.score + r.2 }

/-- update_game lines 508-511 as a state transformer. -/
def stageCoinsAdvance (s : GameState) : GameState :=
  { s with coins := coinsAdvance s.coins }

/-- update_game lines 514-517 as a state transformer. -/
def stagePowerupsAdvance (s : GameState) : GameState :=
  { s with power_ups := powerupsAdvance s.power_ups }

/-- update_game lines 520-523 as a state transformer. -/
def stageParticlesAdvance (s : GameState) : GameState :=
  { s with particles := particlesAdvance s.particles }

/-- update_game lines 562-577 as a state transformer (player_rect is
computed once at line 562 and the player does not move afterwards). -/
def stageResolveObstacles (o : Oracle) (s : GameState) : GameState :=
  resolveObstacles o (playerRect s.player) s

/-- update_game lines 580-621 as a state transformer. -/
def stageCoins (o : Oracle) (s : GameState) : GameState :=
  let r := coinPass o.sqrtA s.magnet_active s.double_score_active s.player
    (playerRect s.player) o.magnetVels o.coinVels 0 s.coins
  { s with coins := r.1
           coins_collected := s.coins_collected + r.2.1
           score := s.score + r.2.2.1
           particles := s.particles ++ r.2.2.2 }

/-- update_game lines 624-629 as a state transformer. -/
def stagePowerups (o : Oracle) (s : GameState) : GameState :=
  let r := powerupPass (playerRect s.player) o.powerupVels 0 s.power_ups s
  { r.2 with power_ups := r.1 }

/-- update_game lines 632-634: background scroll with wrap. -/
def stageBackground (s : GameState) : GameState :=
  let b := s.background_y + 5
  { s with background_y := if b ≥ SCREEN_HEIGHT then 0 else b }

/-- update_game lines 637-640: the per-frame idle score. -/
def stageIdleScore (s : GameState) : GameState :=
  { s with score := s.score + idleGain s.double_score_active }

/-- Everything update_game does before the collision checks: player
advance, entity advance and prune, spawning, effect timers. -/
def preCollision (o : Oracle) (s : GameState) : GameState :=
  tickTimers (stageSpawnPowerup o (stageSpawnCoin o (stageSpawnObstacle o
    (stageParticlesAdvance (stagePowerupsAdvance (stageCoinsAdvance
      (stageObstaclesAdvance (stagePlayer s))))))))

/-- Everything update_game does after the obstacle collision pass: coin
loop, power-up loop, background scroll, idle score. -/
def postCollision (o : Oracle) (s : GameState) : GameState :=
  stageIdleScore (stageBackground (stagePowerups o (stageCoins o s)))

/-- Game.update_game: one simulation frame (a no-op while game over). -/
def updateGame (o : Oracle) (s : GameState) : GameState :=
  if s.game_over then s
  else postCollision o (stageResolveObstacles o (preCollision o s))

/-- Game.restart_game: reset everything except the high score. -/
def restartGame (s : GameState) : GameState :=
  { s with player := playerInit
           obstacles := []
           coins := []
           power_ups := []
           particles := []
           score := 0
           coins_collected := 0
           game_over := false
           background_y := 0
           speed_multiplier := 1
           obstacle_spawn_timer := 0
           obstacle_spawn_delay := 60
           coin_spawn_timer := 0
           coin_spawn_delay := 90
           powerup_spawn_timer := 0
           powerup_spawn_delay := 600
           shield_active := false
           shield_timer := 0
           magnet_active := false
           magnet_timer := 0
           double_score_active := false
           double_score_timer := 0 }

/-- handle_events: a left key while the game runs. -/
def pressLeft (s : GameState) : GameState :=
  if s.game_over then s else { s with player := moveLeft s.player }

/-- handle_events: a right key while the game runs. -/
def pressRight (s : GameState) : GameState :=
  if s.game_over then s else { s with player := moveRight s.player }

/-- handle_events: the space key restarts only while game over. -/
def pressSpace (s : GameState) : GameState :=
  if s.game_over then restartGame s else s

/-- The game states reachable from a fresh Game through key events and
simulation frames. -/
inductive Reachable : GameState → Prop where
  | init : Reachable initGame
  | left {s : GameState} : Reachable s → Reachable (pressLeft s)
  | right {s : GameState} : Reachable s → Reachable (pressRight s)
  | space {s : GameState} : Reachable s → Reachable (pressSpace s)
  | frame {s : GameState} (o : Oracle) : Reachable s → Reachable (updateGame o s)

/-! ### Projection lemmas for the player steps -/

@[simp] theorem moveStep_invulnerable (p : Player) :
    (moveStep p).invulnerable = p.invulnerable := by
  unfold moveStep; split
  · split
    · rfl
    · split <;> rfl
  · rfl

@[simp] theorem moveStep_invulnerable_timer (p : Player) :
    (moveStep p).invulnerable_timer = p.invulnerable_timer := by
  unfold moveStep; split
  · split
    · rfl
    · split <;> rfl
  · rfl

@[simp] theorem moveStep_current_lane (p : Player) :
    (moveStep p).current_lane = p.current_lane := by
  unfold moveStep; split
  · split
    · rfl
    · split <;> rfl
  · rfl

@[simp] theorem moveStep_width (p : Player) : (moveStep p).width = p.width := by
  unfold moveStep; split
  · split
    · rfl
    · split <;> rfl
  · rfl

@[simp] theorem moveStep_move_speed (p : Player) :
    (moveStep p).move_speed = p.move_speed := by
  unfold moveStep; split
  · split
    · rfl
    · split <;> rfl
  · rfl

@[simp] theorem moveStep_target_x (p : Player) :
    (moveStep p).target_x = p.target_x := by
  unfold moveStep; split
  · split
    · rfl
    · split <;> rfl
  · rfl

@[simp] theorem invulStep_x (p : Player) : (invulStep p).x = p.x := by
  unfold invulStep; split
  · split <;> rfl
  · rfl

@[simp] theorem invulStep_target_x (p : Player) :
    (invulStep p).target_x = p.target_x := by
  unfold invulStep; split
  · split <;> rfl
  · rfl

@[simp] theorem invulStep_moving (p : Player) : (invulStep p).moving = p.moving := by
  unfold invulStep; split
  · split <;> rfl
  · rfl

@[simp] theorem invulStep_current_lane (p : Player) :
    (invulStep p).current_lane = p.current_lane := by
  unfold invulStep; split
  · split <;> rfl
  · rfl

@[simp] theorem invulStep_width (p : Player) : (invulStep p).width = p.width := by
  unfold invulStep; split
  · split <;> rfl
  · rfl

@[simp] theorem invulStep_move_speed (p : Player) :
    (invulStep p).move_speed = p.move_speed := by
  unfold invulStep; split
  · split <;> rfl
  · rfl

/-- The invulnerability countdown of Player.update is the same step
function as the effect timers of update_game. -/
theorem invulStep_pair (p : Player) :
    ((invulStep p).invulnerable, (invulStep p).invulnerable_timer) =
      tickEffect (p.invulnerable, p.invulnerable_timer) := by
  unfold invulStep tickEffect
  by_cases h : p.invulnerable
  · simp only [h, if_true]
    split <;> simp
  · simp [h]

/-! ### Effect timer lemmas -/

theorem tickEffect_inactive (t : Int) : tickEffect (false, t) = (false, t) := rfl

theorem tickEffect_iter_lt (c : Int) (k : Nat) (hk : (k : Int) < c) :
    tickEffect^[k] (true, c) = (true, c - k) := by
  induction k with
  | zero => simp
  | succ n ih =>
    have hn : (n : Int) < c := by push_cast at hk ⊢; omega
    rw [Function.iterate_succ_apply', ih hn]
    have h2 : ¬ (c - (n : Int) - 1 ≤ 0) := by push_cast at hk; omega
    have h3 : c - (n : Int) - 1 = c - ((n : Nat) + 1 : Nat) := by push_cast; ring
    simp only [tickEffect, if_true, h2, if_false, h3]
    rw [if_neg (by push_cast at hk ⊢; omega)]

theorem tickEffect_iter_expire (c : Int) (hc : 0 < c) :
    tickEffect^[c.toNat] (true, c) = (false, 0) := by
  obtain ⟨n, hn⟩ : ∃ n, c.toNat = n + 1 := ⟨c.toNat - 1, by omega⟩
  have hcast : ((c.toNat : Int)) = c := Int.toNat_of_nonneg hc.le
  have hn2 : (n : Int) = c - 1 := by
    have : ((n : Int)) + 1 = c := by rw [← hcast, hn]; push_cast; ring
    omega
  rw [hn, Function.iterate_succ_apply', tickEffect_iter_lt c n (by omega)]
  have h2 : c - (n : Int) - 1 ≤ 0 := by omega
  have h3 : c - (n : Int) - 1 = 0 := by omega
  simp only [tickEffect, if_true, h2, if_pos, h3]
  norm_num

theorem tickEffect_iter_after (c : Int) (hc : 0 < c) (k : Nat) (hk : c.toNat ≤ k) :
    tickEffect^[k] (true, c) = (false, 0) := by
  obtain ⟨m, rfl⟩ : ∃ m, k = m + c.toNat := ⟨k - c.toNat, by omega⟩
  rw [Function.iterate_add_apply, tickEffect_iter_expire c hc]
  exact Function.iterate_fixed rfl m

/-! ### Obstacle collision pass lemmas -/

theorem obstaclePass_clear (pr : Rect) (invul : Bool) :
    ∀ l : List Obstacle, (∀ x ∈ l, rectsCollide pr (obstacleRect x) = false) →
      obstaclePass pr invul l = (l, false, none)
  | [], _ => rfl
  | ob :: rest, h => by
    have hob := h ob (List.mem_cons_self ob rest)
    have hrest := obstaclePass_clear pr invul rest
      (fun x hx => h x (List.mem_cons_of_mem ob hx))
    simp only [obstaclePass, hob, Bool.false_eq_true, if_false, hrest]

theorem obstaclePass_first_fatal (pr : Rect) :
    ∀ (pre : List Obstacle) (ob : Obstacle) (rest : List Obstacle),
      (∀ x ∈ pre, rectsCollide pr (obstacleRect x) = false) →
      rectsCollide pr (obstacleRect ob) = true →
      obstaclePass pr false (pre ++ ob :: rest) = (pre ++ ob :: rest, true, none)
  | [], ob, rest, _, hob => by
    simp only [List.nil_append, obstaclePass, hob, if_true, Bool.false_eq_true,
      if_false]
  | a :: pre, ob, rest, hpre, hob => by
    have ha := hpre a (List.mem_cons_self a pre)
    have ih := obstaclePass_first_fatal pr pre ob rest
      (fun x hx => hpre x (List.mem_cons_of_mem a hx)) hob
    simp only [List.cons_append, obstaclePass, ha, Bool.false_eq_true, if_false,
      List.append_eq, ih]

theorem obstaclePass_first_destroy (pr : Rect) :
    ∀ (pre : List Obstacle) (ob : Obstacle) (rest : List Obstacle),
      (∀ x ∈ pre, rectsCollide pr (obstacleRect x) = false) →
      rectsCollide pr (obstacleRect ob) = true →
      obstaclePass pr true (pre ++ ob :: rest) = (pre ++ rest, false, some ob)
  | [], ob, rest, _, hob => by
    simp only [List.nil_append, obstaclePass, hob, if_true]
  | a :: pre, ob, rest, hpre, hob => by
    have ha := hpre a (List.mem_cons_self a pre)
    have ih := obstaclePass_first_destroy pr pre ob rest
      (fun x hx => hpre x (List.mem_cons_of_mem a hx)) hob
    simp only [List.cons_append, obstaclePass, ha, Bool.false_eq_true, if_false,
      List.append_eq, ih]

/-! ### Frame-stage projection lemmas -/

@[simp] theorem stagePlayer_player (s : GameState) :
    (stagePlayer s).player = playerUpdate s.player := rfl

@[simp] theorem stagePlayer_shield_active (s : GameState) :
    (stagePlayer s).shield_active = s.shield_active := rfl

@[simp] theorem stagePlayer_shield_timer (s : GameState) :
    (stagePlayer s).shield_timer = s.shield_timer := rfl

@[simp] theorem stagePlayer_delay (s : GameState) :
    (stagePlayer s).obstacle_spawn_delay = s.obstacle_spawn_delay := rfl

@[simp] theorem stageObstaclesAdvance_player (s : GameState) :
    (stageObstaclesAdvance s).player = s.player := rfl

@[simp] theorem stageObstaclesAdvance_shield_active (s : GameState) :
    (stageObstaclesAdvance s).shield_active = s.shield_active := rfl

@[simp] theorem stageObstaclesAdvance_shield_timer (s : GameState) :
    (stageObstaclesAdvance s).shield_timer = s.shield_timer := rfl

@[simp] theorem stageObstaclesAdvance_delay (s : GameState) :
    (stageObstaclesAdvance s).obstacle_spawn_delay = s.obstacle_spawn_delay := rfl

@[simp] theorem stageCoinsAdvance_player (s : GameState) :
    (stageCoinsAdvance s).player = s.player := rfl

@[simp] theorem stageCoinsAdvance_shield_active (s : GameState) :
    (stageCoinsAdvance s).shield_active = s.shield_active := rfl

@[simp] theorem stageCoinsAdvance_shield_timer (s : GameState) :
    (stageCoinsAdvance s).shield_timer = s.shield_timer := rfl

@[simp] theorem stageCoinsAdvance_delay (s : GameState) :
    (stageCoinsAdvance s).obstacle_spawn_delay = s.obstacle_spawn_delay := rfl

@[simp] theorem stagePowerupsAdvance_player (s : GameState) :
    (stagePowerupsAdvance s).player = s.player := rfl

@[simp] theorem stagePowerupsAdvance_shield_active (s : GameState) :
    (stagePowerupsAdvance s).shield_active = s.shield_active := rfl

@[simp] theorem stagePowerupsAdvance_shield_timer (s : GameState) :
    (stagePowerupsAdvance s).shield_timer = s.shield_timer := rfl

@[simp] theorem stagePowerupsAdvance_delay (s : GameState) :
    (stagePowerupsAdvance s).obstacle_spawn_delay = s.obstacle_spawn_delay := rfl

@[simp] theorem stageParticlesAdvance_player (s : GameState) :
    (stageParticlesAdvance s).player = s.player := rfl

@[simp] theorem stageParticlesAdvance_shield_active (s : GameState) :
    (stageParticlesAdvance s).shield_active = s.shield_active := rfl

@[simp] theorem stageParticlesAdvance_shield_timer (s : GameState) :
    (stageParticlesAdvance s).shield_timer = s.shield_timer := rfl

@[simp] theorem stageParticlesAdvance_delay (s : GameState) :
    (stageParticlesAdvance s).obstacle_spawn_delay = s.obstacle_spawn_delay := rfl

@[simp] theorem stageSpawnObstacle_player (o : Oracle) (s : GameState) :
    (stageSpawnObstacle o s).player = s.player := by
  simp only [stageSpawnObstacle]; split <;> rfl

@[simp] theorem stageSpawnObstacle_shield_active (o : Oracle) (s : GameState) :
    (stageSpawnObstacle o s).shield_active = s.shield_active := by
  simp only [stageSpawnObstacle]; split <;> rfl

@[simp] theorem stageSpawnObstacle_shield_timer (o : Oracle) (s : GameState) :
    (stageSpawnObstacle o s).shield_timer = s.shield_timer := by
  simp only [stageSpawnObstacle]; split <;> rfl

@[simp] theorem stageSpawnCoin_player (o : Oracle) (s : GameState) :
    (stageSpawnCoin o s).player = s.player := by
  simp only [stageSpawnCoin]; split <;> rfl

@[simp] theorem stageSpawnCoin_shield_active (o : Oracle) (s : GameState) :
    (stageSpawnCoin o s).shield_active = s.shield_active := by
  simp only [stageSpawnCoin]; split <;> rfl

@[simp] theorem stageSpawnCoin_shield_timer (o : Oracle) (s : GameState) :
    (stageSpawnCoin o s).shield_timer = s.shield_timer := by
  simp only [stageSpawnCoin]; split <;> rfl

@[simp] theorem stageSpawnCoin_delay (o : Oracle) (s : GameState) :
    (stageSpawnCoin o s).obstacle_spawn_delay = s.obstacle_spawn_delay := by
  simp only [stageSpawnCoin]; split <;> rfl

@[simp] theorem stageSpawnPowerup_player (o : Oracle) (s : GameState) :
    (stageSpawnPowerup o s).player = s.player := by
  simp only [stageSpawnPowerup]; split <;> rfl

@[simp] theorem stageSpawnPowerup_shield_active (o : Oracle) (s : GameState) :
    (stageSpawnPowerup o s).shield_active = s.shield_active := by
  simp only [stageSpawnPowerup]; split <;> rfl

@[simp] theorem stageSpawnPowerup_shield_timer (o : Oracle) (s : GameState) :
    (stageSpawnPowerup o s).shield_timer = s.shield_timer := by
  simp only [stageSpawnPowerup]; split <;> rfl

@[simp] theorem stageSpawnPowerup_delay (o : Oracle) (s : GameState) :
    (stageSpawnPowerup o s).obstacle_spawn_delay = s.obstacle_spawn_delay := by
  simp only [stageSpawnPowerup]; split <;> rfl

@[simp] theorem tickTimers_player (s : GameState) :
    (tickTimers s).player = s.player := rfl

@[simp] theorem tickTimers_shield_active (s : GameState) :
    (tickTimers s).shield_active = (tickEffect (s.shield_active, s.shield_timer)).1 :=
  rfl

@[simp] theorem tickTimers_shield_timer (s : GameState) :
    (tickTimers s).shield_timer = (tickEffect (s.shield_active, s.shield_timer)).2 :=
  rfl

@[simp] theorem tickTimers_delay (s : GameState) :
    (tickTimers s).obstacle_spawn_delay = s.obstacle_spawn_delay := rfl

@[simp] theorem resolveObstacles_player (o : Oracle) (pr : Rect) (s : GameState) :
    (resolveObstacles o pr s).player = s.player := by
  simp only [resolveObstacles]; split
  · rfl
  · split <;> rfl

@[simp] theorem resolveObstacles_shield_active (o : Oracle) (pr : Rect)
    (s : GameState) :
    (resolveObstacles o pr s).shield_active = s.shield_active := by
  simp only [resolveObstacles]; split
  · rfl
  · split <;> rfl

@[simp] theorem resolveObstacles_shield_timer (o : Oracle) (pr : Rect)
    (s : GameState) :
    (resolveObstacles o pr s).shield_timer = s.shield_timer := by
  simp only [resolveObstacles]; split
  · rfl
  · split <;> rfl

@[simp] theorem resolveObstacles_delay (o : Oracle) (pr : Rect) (s : GameState) :
    (resolveObstacles o pr s).obstacle_spawn_delay = s.obstacle_spawn_delay := by
  simp only [resolveObstacles]; split
  · rfl
  · split <;> rfl

@[simp] theorem resolveObstacles_score (o : Oracle) (pr : Rect) (s : GameState) :
    (resolveObstacles o pr s).score = s.score := by
  simp only [resolveObstacles]; split
  · rfl
  · split <;> rfl

@[simp] theorem resolveObstacles_coins (o : Oracle) (pr : Rect) (s : GameState) :
    (resolveObstacles o pr s).coins = s.coins := by
  simp only [resolveObstacles]; split
  · rfl
  · split <;> rfl

@[simp] theorem resolveObstacles_coins_collected (o : Oracle) (pr : Rect)
    (s : GameState) :
    (resolveObstacles o pr s).coins_collected = s.coins_collected := by
  simp only [resolveObstacles]; split
  · rfl
  · split <;> rfl

@[simp] theorem resolveObstacles_magnet_active (o : Oracle) (pr : Rect)
    (s : GameState) :
    (resolveObstacles o pr s).magnet_active = s.magnet_active := by
  simp only [resolveObstacles]; split
  · rfl
  · split <;> rfl

@[simp] theorem resolveObstacles_double (o : Oracle) (pr : Rect) (s : GameState) :
    (resolveObstacles o pr s).double_score_active = s.double_score_active := by
  simp only [resolveObstacles]; split
  · rfl
  · split <;> rfl

@[simp] theorem resolveObstacles_power_ups (o : Oracle) (pr : Rect) (s : GameState) :
    (resolveObstacles o pr s).power_ups = s.power_ups := by
  simp only [resolveObstacles]; split
  · rfl
  · split <;> rfl

@[simp] theorem stageCoins_player (o : Oracle) (s : GameState) :
    (stageCoins o s).player = s.player := rfl

@[simp] theorem stageCoins_shield_active (o : Oracle) (s : GameState) :
    (stageCoins o s).shield_active = s.shield_active := rfl

@[simp] theorem stageCoins_shield_timer (o : Oracle) (s : GameState) :
    (stageCoins o s).shield_timer = s.shield_timer := rfl

@[simp] theorem stageCoins_delay (o : Oracle) (s : GameState) :
    (stageCoins o s).obstacle_spawn_delay = s.obstacle_spawn_delay := rfl

@[simp] theorem stageCoins_game_over (o : Oracle) (s : GameState) :
    (stageCoins o s).game_over = s.game_over := rfl

@[simp] theorem stageCoins_high_score (o : Oracle) (s : GameState) :
    (stageCoins o s).high_score = s.high_score := rfl

@[simp] theorem stageCoins_power_ups (o : Oracle) (s : GameState) :
    (stageCoins o s).power_ups = s.power_ups := rfl

@[simp] theorem stageBackground_player (s : GameState) :
    (stageBackground s).player = s.player := rfl

@[simp] theorem stageBackground_shield_active (s : GameState) :
    (stageBackground s).shield_active = s.shield_active := rfl

@[simp] theorem stageBackground_shield_timer (s : GameState) :
    (stageBackground s).shield_timer = s.shield_timer := rfl

@[simp] theorem stageBackground_delay (s : GameState) :
    (stageBackground s).obstacle_spawn_delay = s.obstacle_spawn_delay := rfl

@[simp] theorem stageBackground_score (s : GameState) :
    (stageBackground s).score = s.score := rfl

@[simp] theorem stageBackground_high_score (s : GameState) :
    (stageBackground s).high_score = s.high_score := rfl

@[simp] theorem stageBackground_game_over (s : GameState) :
    (stageBackground s).game_over = s.game_over := rfl

@[simp] theorem stageBackground_coins_collected (s : GameState) :
    (stageBackground s).coins_collected = s.coins_collected := rfl

@[simp] theorem stageIdleScore_player (s : GameState) :
    (stageIdleScore s).player = s.player := rfl

@[simp] theorem stageIdleScore_shield_active (s : GameState) :
    (stageIdleScore s).shield_active = s.shield_active := rfl

@[simp] theorem stageIdleScore_shield_timer (s : GameState) :
    (stageIdleScore s).shield_timer = s.shield_timer := rfl

@[simp] theorem stageIdleScore_delay (s : GameState) :
    (stageIdleScore s).obstacle_spawn_delay = s.obstacle_spawn_delay := rfl

@[simp] theorem stageIdleScore_high_score (s : GameState) :
    (stageIdleScore s).high_score = s.high_score := rfl

@[simp] theorem stageIdleScore_game_over (s : GameState) :
    (stageIdleScore s).game_over = s.game_over := rfl

@[simp] theorem stageIdleScore_coins_collected (s : GameState) :
    (stageIdleScore s).coins_collected = s.coins_collected := rfl

@[simp] theorem stageIdleScore_score (s : GameState) :
    (stageIdleScore s).score = s.score + idleGain s.double_score_active := rfl

/-! ### activate_powerup and power-up pass lemmas -/

@[simp] theorem activatePowerup_delay (t : PowerType) (s : GameState) :
    (activatePowerup t s).obstacle_spawn_delay = s.obstacle_spawn_delay := by
  cases t <;> rfl

@[simp] theorem activatePowerup_score (t : PowerType) (s : GameState) :
    (activatePowerup t s).score = s.score := by cases t <;> rfl

@[simp] theorem activatePowerup_high_score (t : PowerType) (s : GameState) :
    (activatePowerup t s).high_score = s.high_score := by cases t <;> rfl

@[simp] theorem activatePowerup_game_over (t : PowerType) (s : GameState) :
    (activatePowerup t s).game_over = s.game_over := by cases t <;> rfl

@[simp] theorem activatePowerup_coins_collected (t : PowerType) (s : GameState) :
    (activatePowerup t s).coins_collected = s.coins_collected := by cases t <;> rfl

@[simp] theorem activatePowerup_coins (t : PowerType) (s : GameState) :
    (activatePowerup t s).coins = s.coins := by cases t <;> rfl

@[simp] theorem activatePowerup_player_x (t : PowerType) (s : GameState) :
    (activatePowerup t s).player.x = s.player.x := by cases t <;> rfl

@[simp] theorem activatePowerup_player_target (t : PowerType) (s : GameState) :
    (activatePowerup t s).player.target_x = s.player.target_x := by cases t <;> rfl

@[simp] theorem activatePowerup_player_moving (t : PowerType) (s : GameState) :
    (activatePowerup t s).player.moving = s.player.moving := by cases t <;> rfl

@[simp] theorem activatePowerup_player_lane (t : PowerType) (s : GameState) :
    (activatePowerup t s).player.current_lane = s.player.current_lane := by
  cases t <;> rfl

@[simp] theorem activatePowerup_player_width (t : PowerType) (s : GameState) :
    (activatePowerup t s).player.width = s.player.width := by cases t <;> rfl

@[simp] theorem activatePowerup_player_speed (t : PowerType) (s : GameState) :
    (activatePowerup t s).player.move_speed = s.player.move_speed := by
  cases t <;> rfl

@[simp] theorem activatePowerup_player_y (t : PowerType) (s : GameState) :
    (activatePowerup t s).player.y = s.player.y := by cases t <;> rfl

@[simp] theorem powerupPass_delay (pr : Rect) (pv : Nat → List (ℚ × ℚ)) :
    ∀ (i : Nat) (l : List PowerUp) (s : GameState),
      ((powerupPass pr pv i l s).2).obstacle_spawn_delay = s.obstacle_spawn_delay
  | _, [], _ => rfl
  | i, pu :: rest, s => by
    simp only [powerupPass]
    split
    · rw [powerupPass_delay pr pv (i + 1) rest _]; simp
    · exact powerupPass_delay pr pv (i + 1) rest s

@[simp] theorem powerupPass_score (pr : Rect) (pv : Nat → List (ℚ × ℚ)) :
    ∀ (i : Nat) (l : List PowerUp) (s : GameState),
      ((powerupPass pr pv i l s).2).score = s.score
  | _, [], _ => rfl
  | i, pu :: rest, s => by
    simp only [powerupPass]
    split
    · rw [powerupPass_score pr pv (i + 1) rest _]; simp
    · exact powerupPass_score pr pv (i + 1) rest s

@[simp] theorem powerupPass_high_score (pr : Rect) (pv : Nat → List (ℚ × ℚ)) :
    ∀ (i : Nat) (l : List PowerUp) (s : GameState),
      ((powerupPass pr pv i l s).2).high_score = s.high_score
  | _, [], _ => rfl
  | i, pu :: rest, s => by
    simp only [powerupPass]
    split
    · rw [powerupPass_high_score pr pv (i + 1) rest _]; simp
    · exact powerupPass_high_score pr pv (i + 1) rest s

@[simp] theorem powerupPass_game_over (pr : Rect) (pv : Nat → List (ℚ × ℚ)) :
    ∀ (i : Nat) (l : List PowerUp) (s : GameState),
      ((powerupPass pr pv i l s).2).game_over = s.game_over
  | _, [], _ => rfl
  | i, pu :: rest, s => by
    simp only [powerupPass]
    split
    · rw [powerupPass_game_over pr pv (i + 1) rest _]; simp
    · exact powerupPass_game_over pr pv (i + 1) rest s

@[simp] theorem powerupPass_coins_collected (pr : Rect) (pv : Nat → List (ℚ × ℚ)) :
    ∀ (i : Nat) (l : List PowerUp) (s : GameState),
      ((powerupPass pr pv i l s).2).coins_collected = s.coins_collected
  | _, [], _ => rfl
  | i, pu :: rest, s => by
    simp only [powerupPass]
    split
    · rw [powerupPass_coins_collected pr pv (i + 1) rest _]; simp
    · exact powerupPass_coins_collected pr pv (i + 1) rest s

@[simp] theorem powerupPass_coins (pr : Rect) (pv : Nat → List (ℚ × ℚ)) :
    ∀ (i : Nat) (l : List PowerUp) (s : GameState),
      ((powerupPass pr pv i l s).2).coins = s.coins
  | _, [], _ => rfl
  | i, pu :: rest, s => by
    simp only [powerupPass]
    split
    · rw [powerupPass_coins pr pv (i + 1) rest _]; simp
    · exact powerupPass_coins pr pv (i + 1) rest s

@[simp] theorem powerupPass_player_x (pr : Rect) (pv : Nat → List (ℚ × ℚ)) :
    ∀ (i : Nat) (l : List PowerUp) (s : GameState),
      ((powerupPass pr pv i l s).2).player.x = s.player.x
  | _, [], _ => rfl
  | i, pu :: rest, s => by
    simp only [powerupPass]
    split
    · rw [powerupPass_player_x pr pv (i + 1) rest _]; simp
    · exact powerupPass_player_x pr pv (i + 1) rest s

@[simp] theorem powerupPass_player_target (pr : Rect) (pv : Nat → List (ℚ × ℚ)) :
    ∀ (i : Nat) (l : List PowerUp) (s : GameState),
      ((powerupPass pr pv i l s).2).player.target_x = s.player.target_x
  | _, [], _ => rfl
  | i, pu :: rest, s => by
    simp only [powerupPass]
    split
    · rw [powerupPass_player_target pr pv (i + 1) rest _]; simp
    · exact powerupPass_player_target pr pv (i + 1) rest s

@[simp] theorem powerupPass_player_moving (pr : Rect) (pv : Nat → List (ℚ × ℚ)) :
    ∀ (i : Nat) (l : List PowerUp) (s : GameState),
      ((powerupPass pr pv i l s).2).player.moving = s.player.moving
  | _, [], _ => rfl
  | i, pu :: rest, s => by
    simp only [powerupPass]
    split
    · rw [powerupPass_player_moving pr pv (i + 1) rest _]; simp
    · exact powerupPass_player_moving pr pv (i + 1) rest s

@[simp] theorem powerupPass_player_lane (pr : Rect) (pv : Nat → List (ℚ × ℚ)) :
    ∀ (i : Nat) (l : List PowerUp) (s : GameState),
      ((powerupPass pr pv i l s).2).player.current_lane = s.player.current_lane
  | _, [], _ => rfl
  | i, pu :: rest, s => by
    simp only [powerupPass]
    split
    · rw [powerupPass_player_lane pr pv (i + 1) rest _]; simp
    · exact powerupPass_player_lane pr pv (i + 1) rest s

@[simp] theorem powerupPass_player_width (pr : Rect) (pv : Nat → List (ℚ × ℚ)) :
    ∀ (i : Nat) (l : List PowerUp) (s : GameState),
      ((powerupPass pr pv i l s).2).player.width = s.player.width
  | _, [], _ => rfl
  | i, pu :: rest, s => by
    simp only [powerupPass]
    split
    · rw [powerupPass_player_width pr pv (i + 1) rest _]; simp
    · exact powerupPass_player_width pr pv (i + 1) rest s

@[simp] theorem powerupPass_player_speed (pr : Rect) (pv : Nat → List (ℚ × ℚ)) :
    ∀ (i : Nat) (l : List PowerUp) (s : GameState),
      ((powerupPass pr pv i l s).2).player.move_speed = s.player.move_speed
  | _, [], _ => rfl
  | i, pu :: rest, s => by
    simp only [powerupPass]
    split
    · rw [powerupPass_player_speed pr pv (i + 1) rest _]; simp
    · exact powerupPass_player_speed pr pv (i + 1) rest s

/-! ### The shield and player invulnerability lockstep invariant -/

@[simp] theorem playerUpdate_invulnerable (p : Player) :
    (playerUpdate p).invulnerable =
      (tickEffect (p.invulnerable, p.invulnerable_timer)).1 := by
  have h := invulStep_pair (moveStep p)
  have h1 := congrArg Prod.fst h
  simpa [playerUpdate] using h1

@[simp] theorem playerUpdate_invulnerable_timer (p : Player) :
    (playerUpdate p).invulnerable_timer =
      (tickEffect (p.invulnerable, p.invulnerable_timer)).2 := by
  have h := invulStep_pair (moveStep p)
  have h2 := congrArg Prod.snd h
  simpa [playerUpdate] using h2

@[simp] theorem moveLeft_invulnerable (p : Player) :
    (moveLeft p).invulnerable = p.invulnerable := by
  unfold moveLeft; split <;> rfl

@[simp] theorem moveLeft_invulnerable_timer (p : Player) :
    (moveLeft p).invulnerable_timer = p.invulnerable_timer := by
  unfold moveLeft; split <;> rfl

@[simp] theorem moveRight_invulnerable (p : Player) :
    (moveRight p).invulnerable = p.invulnerable := by
  unfold moveRight; split <;> rfl

@[simp] theorem moveRight_invulnerable_timer (p : Player) :
    (moveRight p).invulnerable_timer = p.invulnerable_timer := by
  unfold moveRight; split <;> rfl

/-- The lockstep invariant between the shield effect and the player
invulnerability: the flags agree, and while the shield is on the two
timers agree and are at least 1. -/
def Inv3 (s : GameState) : Prop :=
  s.shield_active = s.player.invulnerable ∧
  (s.shield_active = true →
    s.shield_timer = s.player.invulnerable_timer ∧ 1 ≤ s.shield_timer)

theorem inv3_initGame : Inv3 initGame :=
  ⟨rfl, fun h => by simp [initGame] at h⟩

theorem activatePowerup_inv3 (t : PowerType) (s : GameState) (h : Inv3 s) :
    Inv3 (activatePowerup t s) := by
  cases t
  · exact ⟨rfl, fun _ => ⟨rfl, by norm_num [activatePowerup]⟩⟩
  · obtain ⟨h1, h2⟩ := h
    exact ⟨h1, h2⟩
  · obtain ⟨h1, h2⟩ := h
    exact ⟨h1, h2⟩

theorem powerupPass_inv3 (pr : Rect) (pv : Nat → List (ℚ × ℚ)) :
    ∀ (i : Nat) (l : List PowerUp) (s : GameState),
      Inv3 s → Inv3 ((powerupPass pr pv i l s).2)
  | _, [], _, h => h
  | i, pu :: rest, s, h => by
    simp only [powerupPass]
    split
    · apply powerupPass_inv3 pr pv (i + 1) rest
      have h2 := activatePowerup_inv3 pu.ptype s h
      exact h2
    · exact powerupPass_inv3 pr pv (i + 1) rest s h

/-- The two flags and two timers evolve through the same step function,
so the paired invariant survives one synchronized tick. -/
theorem tickEffect_pair_sync (a : Bool) (ts ti : Int)
    (h2 : a = true → ts = ti ∧ 1 ≤ ts) :
    (tickEffect (a, ts)).1 = (tickEffect (a, ti)).1 ∧
    ((tickEffect (a, ts)).1 = true →
      (tickEffect (a, ts)).2 = (tickEffect (a, ti)).2 ∧
      1 ≤ (tickEffect (a, ts)).2) := by
  cases a
  · exact ⟨rfl, fun h => by simp [tickEffect] at h⟩
  · obtain ⟨hts, hge⟩ := h2 rfl
    subst hts
    refine ⟨rfl, fun h => ⟨rfl, ?_⟩⟩
    simp only [tickEffect] at h ⊢
    by_cases hc : ts - 1 ≤ 0
    · simp [hc] at h
    · simp only [if_neg hc] at h ⊢
      simp only [if_true]
      omega

theorem inv3_preCollision (o : Oracle) (s : GameState) (h : Inv3 s) :
    Inv3 (preCollision o s) := by
  obtain ⟨h1, h2⟩ := h
  unfold preCollision Inv3
  simp only [tickTimers_shield_active, tickTimers_shield_timer, tickTimers_player,
    stageSpawnPowerup_shield_active, stageSpawnPowerup_shield_timer,
    stageSpawnPowerup_player, stageSpawnCoin_shield_active,
    stageSpawnCoin_shield_timer, stageSpawnCoin_player,
    stageSpawnObstacle_shield_active, stageSpawnObstacle_shield_timer,
    stageSpawnObstacle_player, stageParticlesAdvance_shield_active,
    stageParticlesAdvance_shield_timer, stageParticlesAdvance_player,
    stagePowerupsAdvance_shield_active, stagePowerupsAdvance_shield_timer,
    stagePowerupsAdvance_player, stageCoinsAdvance_shield_active,
    stageCoinsAdvance_shield_timer, stageCoinsAdvance_player,
    stageObstaclesAdvance_shield_active, stageObstaclesAdvance_shield_timer,
    stageObstaclesAdvance_player, stagePlayer_shield_active,
    stagePlayer_shield_timer, stagePlayer_player, playerUpdate_invulnerable,
    playerUpdate_invulnerable_timer]
  rw [← h1]
  exact tickEffect_pair_sync s.shield_active s.shield_timer
    s.player.invulnerable_timer h2

theorem inv3_updateGame (o : Oracle) (s : GameState) (h : Inv3 s) :
    Inv3 (updateGame o s) := by
  unfold updateGame
  split
  · exact h
  · have ha := inv3_preCollision o s h
    set s1 := preCollision o s with hs1
    have hb : Inv3 (stageResolveObstacles o s1) := by
      obtain ⟨b1, b2⟩ := ha
      unfold stageResolveObstacles
      exact ⟨by simpa using b1, by simpa using b2⟩
    have hc : Inv3 (stageCoins o (stageResolveObstacles o s1)) := by
      obtain ⟨c1, c2⟩ := hb
      exact ⟨by simpa using c1, by simpa using c2⟩
    have hd : Inv3 (stagePowerups o (stageCoins o (stageResolveObstacles o s1))) := by
      have := powerupPass_inv3
        (playerRect (stageCoins o (stageResolveObstacles o s1)).player)
        o.powerupVels 0 (stageCoins o (stageResolveObstacles o s1)).power_ups
        (stageCoins o (stageResolveObstacles o s1)) hc
      obtain ⟨d1, d2⟩ := this
      exact ⟨d1, d2⟩
    unfold postCollision
    obtain ⟨e1, e2⟩ := hd
    exact ⟨by simpa using e1, by simpa using e2⟩

theorem inv3_pressLeft (s : GameState) (h : Inv3 s) : Inv3 (pressLeft s) := by
  unfold pressLeft
  split
  · exact h
  · obtain ⟨h1, h2⟩ := h
    exact ⟨by simpa using h1, by simpa using h2⟩

theorem inv3_pressRight (s : GameState) (h : Inv3 s) : Inv3 (pressRight s) := by
  unfold pressRight
  split
  · exact h
  · obtain ⟨h1, h2⟩ := h
    exact ⟨by simpa using h1, by simpa using h2⟩

theorem inv3_restart (s : GameState) : Inv3 (restartGame s) :=
  ⟨rfl, fun h => by simp [restartGame, playerInit] at h⟩

theorem inv3_pressSpace (s : GameState) (h : Inv3 s) : Inv3 (pressSpace s) := by
  unfold pressSpace
  split
  · exact inv3_restart s
  · exact h

theorem reachable_inv3 {s : GameState} (h : Reachable s) : Inv3 s := by
  induction h with
  | init => exact inv3_initGame
  | left _ ih => exact inv3_pressLeft _ ih
  | right _ ih => exact inv3_pressRight _ ih
  | space _ ih => exact inv3_pressSpace _ ih
  | frame o _ ih => exact inv3_updateGame o _ ih

/-! ### Player movement lemmas -/

/-- Movement-relevant projection of the player: x, target_x, move_speed,
moving.  Player.update touches these independently of the
invulnerability fields. -/
def movProj (p : Player) : Int × Int × Int × Bool :=
  (p.x, p.target_x, p.move_speed, p.moving)

/-- The movement part of Player.update expressed on the projection. -/
def movNext : Int × Int × Int × Bool → Int × Int × Int × Bool
  | (x, t, ms, mv) =>
    if mv then
      if |x - t| < ms then (t, t, ms, false)
      else if x < t then (x + ms, t, ms, true)
      else (x - ms, t, ms, true)
    else (x, t, ms, mv)

theorem movProj_moveStep (p : Player) : movProj (moveStep p) = movNext (movProj p) := by
  unfold moveStep movNext movProj
  cases hmv : p.moving
  · simp [hmv]
  · by_cases h1 : |p.x - p.target_x| < p.move_speed
    · simp [hmv, h1]
    · by_cases h2 : p.x < p.target_x
      · simp [hmv, h1, h2]
      · simp [hmv, h1, h2]

theorem movProj_invulStep (p : Player) : movProj (invulStep p) = movProj p := by
  unfold movProj
  simp

theorem movProj_playerUpdate (p : Player) :
    movProj (playerUpdate p) = movNext (movProj p) := by
  unfold playerUpdate
  rw [movProj_invulStep, movProj_moveStep]

theorem movProj_iterate (n : Nat) (p : Player) :
    movProj (playerUpdate^[n] p) = movNext^[n] (movProj p) := by
  induction n with
  | zero => rfl
  | succ m ih =>
    rw [Function.iterate_succ_apply', Function.iterate_succ_apply',
      movProj_playerUpdate, ih]

/-- The movement invariant of the player: constants intact, lane in
range, target on the lane grid, x at rest equal to the target, and a
remaining distance of the exact shape 3 + 12k while a move is under
way. -/
def PInv (p : Player) : Prop :=
  p.width = 40 ∧ p.move_speed = 12 ∧ p.current_lane < 3 ∧
  p.target_x = lanePos p.current_lane - 20 ∧
  (p.moving = false → p.x = p.target_x) ∧
  (p.moving = true → ∃ k : Nat, k ≤ 22 ∧ (p.x - p.target_x).natAbs = 3 + 12 * k)

theorem pinv_playerInit : PInv playerInit := by
  refine ⟨rfl, rfl, by decide, by decide, fun _ => rfl, fun hf => ?_⟩
  simp [playerInit] at hf

theorem pinv_moveLeft (p : Player) (h : PInv p) : PInv (moveLeft p) := by
  obtain ⟨hw, hms, hl, ht, hrest, hmov⟩ := h
  unfold moveLeft
  split
  case isTrue hcond =>
    obtain ⟨hpos, hnm⟩ := hcond
    have hx : p.x = p.target_x := hrest hnm
    refine ⟨hw, hms, by show p.current_lane - 1 < 3; omega,
      by show lanePos (p.current_lane - 1) - p.width / 2 =
           lanePos (p.current_lane - 1) - 20; rw [hw]; norm_num,
      fun hf => by simp at hf, fun _ => ⟨22, by norm_num, ?_⟩⟩
    show (p.x - (lanePos (p.current_lane - 1) - p.width / 2)).natAbs = 3 + 12 * 22
    rw [hx, ht, hw]
    interval_cases h : p.current_lane
    · decide
    · decide
  case isFalse => exact ⟨hw, hms, hl, ht, hrest, hmov⟩

theorem pinv_moveRight (p : Player) (h : PInv p) : PInv (moveRight p) := by
  obtain ⟨hw, hms, hl, ht, hrest, hmov⟩ := h
  unfold moveRight
  split
  case isTrue hcond =>
    obtain ⟨hlt, hnm⟩ := hcond
    have hx : p.x = p.target_x := hrest hnm
    refine ⟨hw, hms, by show p.current_lane + 1 < 3; omega,
      by show lanePos (p.current_lane + 1) - p.width / 2 =
           lanePos (p.current_lane + 1) - 20; rw [hw]; norm_num,
      fun hf => by simp at hf, fun _ => ⟨22, by norm_num, ?_⟩⟩
    show (p.x - (lanePos (p.current_lane + 1) - p.width / 2)).natAbs = 3 + 12 * 22
    rw [hx, ht, hw]
    interval_cases h : p.current_lane
    · decide
    · decide
  case isFalse => exact ⟨hw, hms, hl, ht, hrest, hmov⟩

theorem pinv_moveStep (p : Player) (h : PInv p) : PInv (moveStep p) := by
  obtain ⟨hw, hms, hl, ht, hrest, hmov⟩ := h
  unfold moveStep
  by_cases hmv : p.moving = true
  · obtain ⟨k, hk22, hkd⟩ := hmov hmv
    rw [if_pos hmv]
    by_cases h1 : |p.x - p.target_x| < p.move_speed
    · rw [if_pos h1]
      exact ⟨hw, hms, hl, ht, fun _ => rfl, fun hf => by simp at hf⟩
    · have h1q := h1
      rw [hms] at h1q
      have habs : |p.x - p.target_x| = ((p.x - p.target_x).natAbs : Int) :=
        Int.abs_eq_natAbs _
      have hk1 : 1 ≤ k := by
        by_contra hk0
        have hkz : k = 0 := by omega
        subst hkz
        rw [habs, hkd] at h1q
        omega
      rw [if_neg h1]
      by_cases h2 : p.x < p.target_x
      · rw [if_pos h2]
        refine ⟨hw, hms, hl, ht, fun hf => by simp [hmv] at hf,
          fun _ => ⟨k - 1, by omega, ?_⟩⟩
        show (p.x + p.move_speed - p.target_x).natAbs = 3 + 12 * (k - 1)
        rw [hms]
        omega
      · rw [if_neg h2]
        refine ⟨hw, hms, hl, ht, fun hf => by simp [hmv] at hf,
          fun _ => ⟨k - 1, by omega, ?_⟩⟩
        show (p.x - p.move_speed - p.target_x).natAbs = 3 + 12 * (k - 1)
        rw [hms]
        omega
  · rw [if_neg hmv]
    exact ⟨hw, hms, hl, ht, hrest, hmov⟩

theorem pinv_invulStep (p : Player) (h : PInv p) : PInv (invulStep p) := by
  unfold PInv at h ⊢
  simpa using h

theorem pinv_playerUpdate (p : Player) (h : PInv p) : PInv (playerUpdate p) :=
  pinv_invulStep _ (pinv_moveStep _ h)

theorem pinv_preCollision (o : Oracle) (s : GameState) (h : PInv s.player) :
    PInv (preCollision o s).player := by
  unfold preCollision
  simp only [tickTimers_player, stageSpawnPowerup_player, stageSpawnCoin_player,
    stageSpawnObstacle_player, stageParticlesAdvance_player,
    stagePowerupsAdvance_player, stageCoinsAdvance_player,
    stageObstaclesAdvance_player, stagePlayer_player]
  exact pinv_playerUpdate _ h

theorem pinv_stagePowerups (o : Oracle) (s : GameState) (h : PInv s.player) :
    PInv (stagePowerups o s).player := by
  unfold stagePowerups PInv at *
  simpa using h

theorem pinv_updateGame (o : Oracle) (s : GameState) (h : PInv s.player) :
    PInv (updateGame o s).player := by
  unfold updateGame
  split
  · exact h
  · have h1 := pinv_preCollision o s h
    have h2 : PInv (stageResolveObstacles o (preCollision o s)).player := by
      unfold stageResolveObstacles PInv at *
      simpa using h1
    have h3 : PInv (stageCoins o (stageResolveObstacles o (preCollision o s))).player := by
      unfold PInv at *
      simpa using h2
    have h4 := pinv_stagePowerups o _ h3
    unfold postCollision PInv at *
    simpa using h4

theorem reachable_pinv {s : GameState} (h : Reachable s) : PInv s.player := by
  induction h with
  | init => exact pinv_playerInit
  | left _ ih =>
    unfold pressLeft
    split
    · exact ih
    · exact pinv_moveLeft _ ih
  | right _ ih =>
    unfold pressRight
    split
    · exact ih
    · exact pinv_moveRight _ ih
  | space _ ih =>
    unfold pressSpace
    split
    · exact pinv_playerInit
    · exact ih
  | frame o _ ih => exact pinv_updateGame o _ ih

/-! ### The obstacle spawn delay invariant -/

@[simp] theorem stagePowerups_delay (o : Oracle) (s : GameState) :
    (stagePowerups o s).obstacle_spawn_delay = s.obstacle_spawn_delay := by
  unfold stagePowerups
  simp

@[simp] theorem stagePowerups_score (o : Oracle) (s : GameState) :
    (stagePowerups o s).score = s.score := by
  unfold stagePowerups
  simp

@[simp] theorem stagePowerups_high_score (o : Oracle) (s : GameState) :
    (stagePowerups o s).high_score = s.high_score := by
  unfold stagePowerups
  simp

@[simp] theorem stagePowerups_game_over (o : Oracle) (s : GameState) :
    (stagePowerups o s).game_over = s.game_over := by
  unfold stagePowerups
  simp

@[simp] theorem stagePowerups_coins_collected (o : Oracle) (s : GameState) :
    (stagePowerups o s).coins_collected = s.coins_collected := by
  unfold stagePowerups
  simp

/-- The obstacle spawn delay always has the exact form 60 - 0.3 k for
some number of ramp events k at most 100. -/
def DInv (s : GameState) : Prop :=
  ∃ k : Nat, k ≤ 100 ∧ s.obstacle_spawn_delay = 60 - 3 * k / 10

theorem dinv_initGame : DInv initGame :=
  ⟨0, by norm_num, by norm_num [initGame]⟩

theorem nextObstacleDelay_form (d : ℚ)
    (h : ∃ k : Nat, k ≤ 100 ∧ d = 60 - 3 * k / 10) :
    ∃ k : Nat, k ≤ 100 ∧ nextObstacleDelay d = 60 - 3 * k / 10 := by
  obtain ⟨k, hk, hd⟩ := h
  unfold nextObstacleDelay
  by_cases hc : 30 < d
  · rw [if_pos hc]
    have hklt : k < 100 := by
      by_contra h100
      have hk100 : k = 100 := by omega
      subst hk100
      rw [hd] at hc
      norm_num at hc
    refine ⟨k + 1, by omega, ?_⟩
    rw [hd]
    push_cast
    ring
  · rw [if_neg hc]
    exact ⟨k, hk, hd⟩

theorem dinv_lower (d : ℚ) (h : ∃ k : Nat, k ≤ 100 ∧ d = 60 - 3 * k / 10) :
    30 ≤ d := by
  obtain ⟨k, hk, hd⟩ := h
  have hkq : (k : ℚ) ≤ 100 := by exact_mod_cast hk
  rw [hd]
  linarith

@[simp] theorem stageSpawnObstacle_delay (o : Oracle) (s : GameState) :
    (stageSpawnObstacle o s).obstacle_spawn_delay =
      (if ((s.obstacle_spawn_timer + 1 : Int) : ℚ) ≥ s.obstacle_spawn_delay
       then nextObstacleDelay s.obstacle_spawn_delay
       else s.obstacle_spawn_delay) := by
  simp only [stageSpawnObstacle]
  split <;> rfl

theorem stageSpawnObstacle_dinv (o : Oracle) (s : GameState) (h : DInv s) :
    DInv (stageSpawnObstacle o s) := by
  unfold DInv
  rw [stageSpawnObstacle_delay]
  split
  · exact nextObstacleDelay_form _ h
  · exact h

theorem dinv_preCollision (o : Oracle) (s : GameState) (h : DInv s) :
    DInv (preCollision o s) := by
  unfold preCollision
  have hz : DInv (stageParticlesAdvance (stagePowerupsAdvance (stageCoinsAdvance
      (stageObstaclesAdvance (stagePlayer s))))) := by
    unfold DInv
    simp only [stageParticlesAdvance_delay, stagePowerupsAdvance_delay,
      stageCoinsAdvance_delay, stageObstaclesAdvance_delay, stagePlayer_delay]
    exact h
  have hs := stageSpawnObstacle_dinv o _ hz
  unfold DInv at hs ⊢
  simpa using hs

theorem dinv_updateGame (o : Oracle) (s : GameState) (h : DInv s) :
    DInv (updateGame o s) := by
  unfold updateGame
  split
  · exact h
  · have h1 := dinv_preCollision o s h
    unfold postCollision DInv at *
    simp only [stageIdleScore_delay, stageBackground_delay, stagePowerups_delay,
      stageCoins_delay]
    unfold stageResolveObstacles
    simpa using h1

theorem reachable_dinv {s : GameState} (h : Reachable s) : DInv s := by
  induction h with
  | init => exact dinv_initGame
  | left _ ih =>
    unfold pressLeft
    split
    · exact ih
    · unfold DInv at *
      simpa using ih
  | right _ ih =>
    unfold pressRight
    split
    · exact ih
    · unfold DInv at *
      simpa using ih
  | space _ ih =>
    unfold pressSpace
    split
    · exact ⟨0, by norm_num, by norm_num [restartGame]⟩
    · exact ih
  | frame o _ ih => exact dinv_updateGame o _ ih

/-! ### Outcome lemmas for the obstacle resolution and coin pass -/

@[simp] theorem stageCoins_score (o : Oracle) (s : GameState) :
    (stageCoins o s).score = s.score +
      (coinPass o.sqrtA s.magnet_active s.double_score_active s.player
        (playerRect s.player) o.magnetVels o.coinVels 0 s.coins).2.2.1 := rfl

@[simp] theorem stageCoins_coins_collected (o : Oracle) (s : GameState) :
    (stageCoins o s).coins_collected = s.coins_collected +
      (coinPass o.sqrtA s.magnet_active s.double_score_active s.player
        (playerRect s.player) o.magnetVels o.coinVels 0 s.coins).2.1 := rfl

theorem resolveObstacles_fatal (o : Oracle) (pr : Rect) (s : GameState)
    (pre : List Obstacle) (ob : Obstacle) (rest : List Obstacle)
    (hobs : s.obstacles = pre ++ ob :: rest)
    (hpre : ∀ x ∈ pre, rectsCollide pr (obstacleRect x) = false)
    (hob : rectsCollide pr (obstacleRect ob) = true)
    (hinv : s.player.invulnerable = false) :
    (resolveObstacles o pr s).game_over = true ∧
    (resolveObstacles o pr s).high_score =
      (if s.score > s.high_score then s.score else s.high_score) ∧
    (resolveObstacles o pr s).obstacles = s.obstacles := by
  unfold resolveObstacles
  rw [hinv, hobs, obstaclePass_first_fatal pr pre ob rest hpre hob]
  exact ⟨rfl, rfl, rfl⟩

theorem resolveObstacles_destroy (o : Oracle) (pr : Rect) (s : GameState)
    (pre : List Obstacle) (ob : Obstacle) (rest : List Obstacle)
    (hobs : s.obstacles = pre ++ ob :: rest)
    (hpre : ∀ x ∈ pre, rectsCollide pr (obstacleRect x) = false)
    (hob : rectsCollide pr (obstacleRect ob) = true)
    (hinv : s.player.invulnerable = true) :
    (resolveObstacles o pr s).obstacles = pre ++ rest ∧
    (resolveObstacles o pr s).game_over = s.game_over ∧
    (resolveObstacles o pr s).score = s.score ∧
    (resolveObstacles o pr s).high_score = s.high_score := by
  unfold resolveObstacles
  rw [hinv, hobs, obstaclePass_first_destroy pr pre ob rest hpre hob]
  exact ⟨rfl, rfl, rfl, rfl⟩

theorem resolveObstacles_clear (o : Oracle) (pr : Rect) (s : GameState)
    (hall : ∀ x ∈ s.obstacles, rectsCollide pr (obstacleRect x) = false) :
    resolveObstacles o pr s = s := by
  unfold resolveObstacles
  rw [obstaclePass_clear pr s.player.invulnerable s.obstacles hall]
  rfl

theorem coinGain_nonneg (d : Bool) : 0 ≤ coinGain d := by
  cases d <;> norm_num [coinGain]

theorem idleGain_ge_one (d : Bool) : 1 ≤ idleGain d := by
  cases d <;> norm_num [idleGain]

theorem coinPass_gain_nonneg (sqrtA : ℚ → ℚ) (magnet double : Bool) (p : Player)
    (pr : Rect) (mv cv : Nat → List (ℚ × ℚ)) :
    ∀ (i : Nat) (l : List Coin),
      0 ≤ (coinPass sqrtA magnet double p pr mv cv i l).2.2.1
  | _, [] => le_refl 0
  | i, c :: rest => by
    have ih := coinPass_gain_nonneg sqrtA magnet double p pr mv cv (i + 1) rest
    have hg := coinGain_nonneg double
    simp only [coinPass]
    split
    · simpa using add_nonneg hg ih
    · simpa using ih

/-! ### Concrete fixtures used by witnesses -/

/-- A concrete oracle: deterministic draws, empty particle velocity
streams, a sqrt approximation that is exact on the squares used. -/
def oracleW : Oracle :=
  { obstacleLane := 0
    obstacleSpike := false
    coinLane := 0
    powerupLane := 0
    powerupType := PowerType.shield
    sqrtA := fun q => if q = 2500 then 50 else if q = 10000 then 100 else 0
    crashVels := []
    destroyVels := []
    magnetVels := fun _ => []
    coinVels := fun _ => []
    powerupVels := fun _ => [] }

/-- A lane-1 obstacle placed so its inset rectangle overlaps the resting
lane-1 player rectangle. -/
def obW : Obstacle := { obstacleInit 1 ObstacleType.normal with y := 458 }

/-- The same obstacle one frame earlier (one update before obW, with the
rotation phase rolled back). -/
def obW0 : Obstacle := { obstacleInit 1 ObstacleType.normal with y := 450 }

/-- obW0 after one Obstacle.update, as produced inside a frame. -/
def obW1 : Obstacle :=
  { obstacleInit 1 ObstacleType.normal with y := 458, rotation := 2 }

def playerInvulW : Player :=
  { playerInit with invulnerable := true, invulnerable_timer := 2 }

def sC1a : GameState := { initGame with obstacles := [obW], score := 5 }

def sC1b : GameState :=
  { initGame with obstacles := [obW], player := playerInvulW }

def sC10 : GameState := { initGame with obstacles := [obW0], score := 5 }

/-! ### Claims -/

/-- Claim C1: in each frame obstacle-collision pass, at most one obstacle
is resolved.  Scanning in order, at the first overlap between the player
rectangle and the inset obstacle rectangle, a non-invulnerable player
sets game over (recording the high score when beaten) with no obstacle
removed and no later obstacle examined; an invulnerable player has
exactly that obstacle removed, at no score penalty, and the scan also
stops there. -/
theorem obstacle_pass_single_resolution (o : Oracle) (pr : Rect) (s : GameState)
    (pre : List Obstacle) (ob : Obstacle) (rest : List Obstacle)
    (hobs : s.obstacles = pre ++ ob :: rest)
    (hpre : ∀ x ∈ pre, rectsCollide pr (obstacleRect x) = false)
    (hob : rectsCollide pr (obstacleRect ob) = true) :
    (s.player.invulnerable = false →
      (resolveObstacles o pr s).game_over = true ∧
      (resolveObstacles o pr s).high_score =
        (if s.score > s.high_score then s.score else s.high_score) ∧
      (resolveObstacles o pr s).obstacles = s.obstacles ∧
      (resolveObstacles o pr s).score = s.score) ∧
    (s.player.invulnerable = true →
      (resolveObstacles o pr s).obstacles = pre ++ rest ∧
      (resolveObstacles o pr s).game_over = s.game_over ∧
      (resolveObstacles o pr s).score = s.score ∧
      (resolveObstacles o pr s).high_score = s.high_score) := by
  constructor
  · intro hinv
    obtain ⟨h1, h2, h3⟩ := resolveObstacles_fatal o pr s pre ob rest hobs hpre hob hinv
    exact ⟨h1, h2, h3, resolveObstacles_score o pr s⟩
  · intro hinv
    obtain ⟨h1, h2, h3, h4⟩ := resolveObstacles_destroy o pr s pre ob rest hobs hpre hob hinv
    exact ⟨h1, h2, h3, h4⟩

theorem obstacle_pass_single_resolution_witness :
    (resolveObstacles oracleW (playerRect playerInit) sC1a).game_over = true ∧
    (resolveObstacles oracleW (playerRect playerInit) sC1a).high_score = 5 ∧
    (resolveObstacles oracleW (playerRect playerInit) sC1a).obstacles = [obW] ∧
    (resolveObstacles oracleW (playerRect playerInit) sC1b).obstacles = [] ∧
    (resolveObstacles oracleW (playerRect playerInit) sC1b).game_over = false ∧
    (resolveObstacles oracleW (playerRect playerInit) sC1b).score = sC1b.score := by
  have h1 := obstacle_pass_single_resolution oracleW (playerRect playerInit) sC1a
    [] obW [] rfl (by intro x hx; simp at hx) (by decide)
  have h2 := obstacle_pass_single_resolution oracleW (playerRect playerInit) sC1b
    [] obW [] rfl (by intro x hx; simp at hx) (by decide)
  obtain ⟨g1, g2, g3, -⟩ := h1.1 rfl
  obtain ⟨k1, k2, -, -⟩ := h2.2 rfl
  refine ⟨g1, ?_, by simpa using g3, by simpa using k1, by simpa using k2,
    (h2.2 rfl).2.2.1⟩
  rw [g2]
  decide

/-- Claim C2: for each of the shield, magnet and double-score effects,
the remaining-duration counter is decremented by exactly one per
frame-update while active and follows the closed form c - k, the active
flag turns false exactly at the step the counter reaches zero (neither
earlier nor once it would go negative), and an effect activated with
counter 300 is active for exactly 300 frame-updates. -/
theorem effect_timer_exact :
    (∀ t : Int, tickEffect (true, t) =
      (if t - 1 ≤ 0 then (false, t - 1) else (true, t - 1))) ∧
    (∀ t : Int, tickEffect (false, t) = (false, t)) ∧
    (∀ c : Int, 0 < c → ∀ k : Nat, (k : Int) < c →
      tickEffect^[k] (true, c) = (true, c - k)) ∧
    (∀ c : Int, 0 < c → tickEffect^[c.toNat] (true, c) = (false, 0)) ∧
    (∀ c : Int, 0 < c → ∀ k : Nat, c.toNat ≤ k →
      tickEffect^[k] (true, c) = (false, 0)) ∧
    (∀ s : GameState,
      ((tickTimers s).shield_active, (tickTimers s).shield_timer) =
        tickEffect (s.shield_active, s.shield_timer) ∧
      ((tickTimers s).magnet_active, (tickTimers s).magnet_timer) =
        tickEffect (s.magnet_active, s.magnet_timer) ∧
      ((tickTimers s).double_score_active, (tickTimers s).double_score_timer) =
        tickEffect (s.double_score_active, s.double_score_timer)) ∧
    (∀ k : Nat, k < 300 → (tickEffect^[k] (true, 300)).1 = true) ∧
    tickEffect^[300] (true, 300) = (false, 0) := by
  refine ⟨fun t => rfl, fun t => rfl,
    fun c _ k hk => tickEffect_iter_lt c k hk,
    fun c hc => tickEffect_iter_expire c hc,
    fun c hc k hk => tickEffect_iter_after c hc k hk,
    fun s => ⟨rfl, rfl, rfl⟩, ?_, ?_⟩
  · intro k hk
    rw [tickEffect_iter_lt 300 k (by exact_mod_cast hk)]
  · have h := tickEffect_iter_expire 300 (by norm_num)
    have ht : ((300 : Int)).toNat = 300 := rfl
    rw [ht] at h
    exact h

theorem effect_timer_exact_witness :
    tickEffect^[2] (true, 3) = (true, 1) ∧
    tickEffect^[3] (true, 3) = (false, 0) ∧
    tickEffect^[5] (true, 3) = (false, 0) := by
  refine ⟨?_, ?_, ?_⟩
  · have h := effect_timer_exact.2.2.1 3 (by norm_num) 2 (by norm_num)
    simpa using h
  · have h := effect_timer_exact.2.2.2.1 3 (by norm_num)
    simpa using h
  · have h := effect_timer_exact.2.2.2.2.1 3 (by norm_num) 5 (by norm_num)
    simpa using h

/-- Claim C3: shield and player invulnerability stay in lockstep.
Activation sets both flags with both timers at 300; in every reachable
state the two flags are equal at the end of a frame; the player
countdown is the same step function as the shield timer, so after
exactly 300 ticks both are cleared while one tick earlier both are still
on; and the obstacle pass under invulnerability destroys the overlapping
obstacle instead of ending the game. -/
theorem shield_invul_lockstep :
    (∀ s : GameState,
      (activatePowerup PowerType.shield s).shield_active = true ∧
      (activatePowerup PowerType.shield s).player.invulnerable = true ∧
      (activatePowerup PowerType.shield s).shield_timer = 300 ∧
      (activatePowerup PowerType.shield s).player.invulnerable_timer = 300) ∧
    (∀ s : GameState, Reachable s → s.shield_active = s.player.invulnerable) ∧
    (∀ p : Player,
      ((playerUpdate p).invulnerable, (playerUpdate p).invulnerable_timer) =
        tickEffect (p.invulnerable, p.invulnerable_timer)) ∧
    (∀ k : Nat, k < 300 → tickEffect^[k] (true, 300) = (true, 300 - (k : Int))) ∧
    tickEffect^[299] (true, 300) = (true, 1) ∧
    tickEffect^[300] (true, 300) = (false, 0) ∧
    (∀ (pr : Rect) (ob : Obstacle) (rest : List Obstacle),
      rectsCollide pr (obstacleRect ob) = true →
      obstaclePass pr true (ob :: rest) = (rest, false, some ob)) := by
  refine ⟨fun s => ⟨rfl, rfl, rfl, rfl⟩,
    fun s h => (reachable_inv3 h).1,
    fun p => ?_, fun k hk => tickEffect_iter_lt 300 k (by exact_mod_cast hk),
    ?_, ?_, fun pr ob rest hob => ?_⟩
  · rw [playerUpdate_invulnerable, playerUpdate_invulnerable_timer]
  · have h := tickEffect_iter_lt 300 299 (by norm_num)
    have h2 : (300 : Int) - ((299 : Nat) : Int) = 1 := by norm_num
    rw [h2] at h
    exact h
  · have h := tickEffect_iter_expire 300 (by norm_num)
    have ht : ((300 : Int)).toNat = 300 := rfl
    rw [ht] at h
    exact h
  · have h := obstaclePass_first_destroy pr [] ob rest
      (by intro x hx; simp at hx) hob
    simpa using h

theorem shield_invul_lockstep_witness :
    (activatePowerup PowerType.shield initGame).shield_active = true ∧
    initGame.shield_active = initGame.player.invulnerable ∧
    tickEffect^[299] (true, 300) = (true, 1) ∧
    obstaclePass (playerRect playerInit) true [obW] = ([], false, some obW) := by
  refine ⟨(shield_invul_lockstep.1 initGame).1,
    shield_invul_lockstep.2.1 initGame Reachable.init,
    shield_invul_lockstep.2.2.2.2.1,
    shield_invul_lockstep.2.2.2.2.2.2 (playerRect playerInit) obW [] (by decide)⟩

/-- Claim C4: in every reachable game state the player lane index is one
of 0, 1, 2, and whenever x equals target-x the moving flag is false;
move requests are ignored while a move is in progress or at a boundary
lane, so the lane index never leaves the range and at most one lane
change is ever in progress. -/
theorem lane_index_invariant :
    (∀ s : GameState, Reachable s →
      s.player.current_lane < 3 ∧
      (s.player.x = s.player.target_x → s.player.moving = false)) ∧
    (∀ p : Player, p.moving = true → moveLeft p = p ∧ moveRight p = p) ∧
    (∀ p : Player, p.current_lane = 0 → moveLeft p = p) ∧
    (∀ p : Player, 2 ≤ p.current_lane → moveRight p = p) := by
  refine ⟨fun s h => ?_, fun p hmv => ⟨?_, ?_⟩, fun p h0 => ?_, fun p h2 => ?_⟩
  · have hp := reachable_pinv h
    obtain ⟨-, -, hl, -, -, hmov⟩ := hp
    refine ⟨hl, fun hx => ?_⟩
    by_contra hne
    have hmt : s.player.moving = true := by
      cases hb : s.player.moving
      · exact absurd hb hne
      · rfl
    obtain ⟨k, -, habs⟩ := hmov hmt
    rw [hx] at habs
    simp at habs
    omega
  · unfold moveLeft
    rw [if_neg]
    rintro ⟨-, hmf⟩
    rw [hmv] at hmf
    cases hmf
  · unfold moveRight
    rw [if_neg]
    rintro ⟨-, hmf⟩
    rw [hmv] at hmf
    cases hmf
  · unfold moveLeft
    rw [if_neg]
    rintro ⟨hpos, -⟩
    omega
  · unfold moveRight
    rw [if_neg]
    rintro ⟨hlt, -⟩
    omega

def movingW : Player := { playerInit with moving := true }

def laneZeroW : Player := { playerInit with current_lane := 0 }

def laneTwoW : Player := { playerInit with current_lane := 2 }

theorem lane_index_invariant_witness :
    initGame.player.current_lane < 3 ∧
    moveLeft movingW = movingW ∧
    moveRight movingW = movingW ∧
    moveLeft laneZeroW = laneZeroW ∧
    moveRight laneTwoW = laneTwoW :=
  ⟨(lane_index_invariant.1 initGame Reachable.init).1,
   (lane_index_invariant.2.1 movingW rfl).1,
   (lane_index_invariant.2.1 movingW rfl).2,
   lane_index_invariant.2.2.1 laneZeroW rfl,
   lane_index_invariant.2.2.2 laneTwoW (by norm_num [laneTwoW])⟩

/-- The survival score credited by the obstacle advance loop is exactly
the survival gain once per obstacle that left the screen this frame. -/
theorem obstaclesAdvance_gain (d : Bool) :
    ∀ l : List Obstacle,
      (obstaclesAdvance d l).2 =
        survivalGain d *
          (((l.map obstacleUpdate).filter obstacleOffScreen).length : Int)
  | [] => by simp [obstaclesAdvance]
  | ob :: rest => by
    have ih := obstaclesAdvance_gain d rest
    simp only [obstaclesAdvance, List.map_cons, List.filter_cons]
    by_cases h : obstacleOffScreen (obstacleUpdate ob)
    · simp only [h, if_true, List.length_cons, ih]
      push_cast
      ring
    · simp only [h, Bool.false_eq_true, if_false, ih]

/-- Claim C5: with double score active every scoring event credits
exactly twice its base value: 20 instead of 10 for a survived obstacle,
100 instead of 50 for a coin, 2 instead of 1 for the idle increment; and
the frame stages pay these gains per event. -/
theorem double_score_doubles :
    survivalGain true = 20 ∧ survivalGain false = 10 ∧
    coinGain true = 100 ∧ coinGain false = 50 ∧
    idleGain true = 2 ∧ idleGain false = 1 ∧
    survivalGain true = 2 * survivalGain false ∧
    coinGain true = 2 * coinGain false ∧
    idleGain true = 2 * idleGain false ∧
    (∀ (d : Bool) (l : List Obstacle),
      (obstaclesAdvance d l).2 =
        survivalGain d *
          (((l.map obstacleUpdate).filter obstacleOffScreen).length : Int)) ∧
    (∀ s : GameState,
      (stageIdleScore s).score = s.score + idleGain s.double_score_active) ∧
    (∀ s : GameState,
      (stageObstaclesAdvance s).score =
        s.score + (obstaclesAdvance s.double_score_active s.obstacles).2) :=
  ⟨rfl, rfl, rfl, rfl, rfl, rfl, rfl, rfl, rfl,
   obstaclesAdvance_gain, fun _ => rfl, fun _ => rfl⟩

/-- Claim C6: with the magnet active, a coin whose center is within
Euclidean distance 80 of the player center is auto-collected that frame
regardless of rectangle overlap and is not moved; between 80 and 200 the
coin is pulled toward the player with a multiplier capped at 3/2 that
grows as the distance shrinks; a coin is collected exactly when it was
auto-collected or its rectangle (captured at the top of the iteration)
overlaps the player rectangle, and collection removes the coin,
increments the collected count by one and credits the coin score.  The
distance hypotheses pin the oracle sqrt to the exact square root of the
squared center distance. -/
theorem magnet_coin_behavior (sqrtA : ℚ → ℚ) (p : Player) (c : Coin)
    (hs0 : 0 ≤ sqrtA (coinDx p c * coinDx p c + coinDy p c * coinDy p c))
    (hs2 : sqrtA (coinDx p c * coinDx p c + coinDy p c * coinDy p c) *
        sqrtA (coinDx p c * coinDx p c + coinDy p c * coinDy p c) =
      coinDx p c * coinDx p c + coinDy p c * coinDy p c) :
    (coinDx p c * coinDx p c + coinDy p c * coinDy p c < 6400 →
      coinStep sqrtA true p c = (true, c, none)) ∧
    (6400 ≤ coinDx p c * coinDx p c + coinDy p c * coinDy p c →
      coinDx p c * coinDx p c + coinDy p c * coinDy p c < 40000 →
      coinStep sqrtA true p c =
        (false,
         { c with
             x := c.x + coinDx p c * min (3/2 : ℚ)
               (3 / (sqrtA (coinDx p c * coinDx p c + coinDy p c * coinDy p c) / 50))
             y := c.y + coinDy p c * min (3/2 : ℚ)
               (3 / (sqrtA (coinDx p c * coinDx p c + coinDy p c * coinDy p c) / 50)) },
         some (coinCenter c))) ∧
    (∀ d : ℚ, min (3/2 : ℚ) (3 / (d / 50)) ≤ 3/2) ∧
    (∀ d1 d2 : ℚ, 0 < d1 → d1 ≤ d2 →
      min (3/2 : ℚ) (3 / (d2 / 50)) ≤ min (3/2 : ℚ) (3 / (d1 / 50))) ∧
    (∀ (magnet double : Bool) (pr : Rect) (mv cv : Nat → List (ℚ × ℚ)) (i : Nat),
      (((coinStep sqrtA magnet p c).1 || rectsCollide pr (coinRect c)) = true →
        (coinPass sqrtA magnet double p pr mv cv i [c]).1 = [] ∧
        (coinPass sqrtA magnet double p pr mv cv i [c]).2.1 = 1 ∧
        (coinPass sqrtA magnet double p pr mv cv i [c]).2.2.1 = coinGain double) ∧
      (((coinStep sqrtA magnet p c).1 || rectsCollide pr (coinRect c)) = false →
        (coinPass sqrtA magnet double p pr mv cv i [c]).1 =
          [(coinStep sqrtA magnet p c).2.1] ∧
        (coinPass sqrtA magnet double p pr mv cv i [c]).2.1 = 0 ∧
        (coinPass sqrtA magnet double p pr mv cv i [c]).2.2.1 = 0)) := by
  refine ⟨?_, ?_, fun d => min_le_left _ _, ?_, ?_⟩
  · intro hD
    have hd80 : sqrtA (coinDx p c * coinDx p c + coinDy p c * coinDy p c) < 80 := by
      nlinarith [hs0, hs2]
    have hd200 : sqrtA (coinDx p c * coinDx p c + coinDy p c * coinDy p c) < 200 := by
      linarith
    simp only [coinStep]
    rw [if_pos trivial, if_pos hd200, if_pos hd80]
  · intro hD1 hD2
    have hd80 : ¬ sqrtA (coinDx p c * coinDx p c + coinDy p c * coinDy p c) < 80 := by
      intro hlt
      nlinarith [hs0, hs2]
    have hd200 : sqrtA (coinDx p c * coinDx p c + coinDy p c * coinDy p c) < 200 := by
      nlinarith [hs0, hs2]
    have hdpos : sqrtA (coinDx p c * coinDx p c + coinDy p c * coinDy p c) > 0 := by
      have := hd80
      nlinarith [hs0, hs2]
    simp only [coinStep]
    rw [if_pos trivial, if_pos hd200, if_neg hd80, if_pos hdpos]
  · intro d1 d2 h1 h2
    refine min_le_min (le_refl _) ?_
    have hd2 : (0:ℚ) < d2 := lt_of_lt_of_le h1 h2
    have h150 : (0:ℚ) < d1 / 50 := by positivity
    rw [div_le_div_iff₀ (by positivity) h150]
    linarith
  · intro magnet double pr mv cv i
    constructor
    · intro hcol
      simp only [coinPass]
      rw [if_pos hcol]
      refine ⟨rfl, by norm_num, by norm_num⟩
    · intro hcol
      simp only [coinPass]
      rw [if_neg (by rw [hcol]; exact Bool.false_ne_true)]
      exact ⟨rfl, rfl, rfl⟩

def coinW1 : Coin := { coinInit 1 with x := 355, y := 425 }

def coinW2 : Coin := { coinInit 1 with x := 325, y := 385 }

theorem magnet_coin_behavior_witness :
    coinStep oracleW.sqrtA true playerInit coinW1 = (true, coinW1, none) ∧
    (coinPass oracleW.sqrtA true false playerInit (playerRect playerInit)
      oracleW.magnetVels oracleW.coinVels 0 [coinW1]).1 = [] ∧
    (coinPass oracleW.sqrtA true false playerInit (playerRect playerInit)
      oracleW.magnetVels oracleW.coinVels 0 [coinW1]).2.1 = 1 ∧
    (coinPass oracleW.sqrtA true false playerInit (playerRect playerInit)
      oracleW.magnetVels oracleW.coinVels 0 [coinW1]).2.2.1 = coinGain false ∧
    coinStep oracleW.sqrtA true playerInit coinW2 =
      (false, { coinW2 with x := 415, y := 505 }, some (340, 400)) ∧
    min (3/2 : ℚ) (3 / ((100 : ℚ) / 50)) ≤ 3/2 := by
  have hdx1 : coinDx playerInit coinW1 = 30 := by
    norm_num [coinDx, playerCenter, coinCenter, playerInit, coinW1, coinInit,
      lanePos, LANE_POSITIONS, LANE_WIDTH, SCREEN_WIDTH, SCREEN_HEIGHT]
  have hdy1 : coinDy playerInit coinW1 = 40 := by
    norm_num [coinDy, playerCenter, coinCenter, playerInit, coinW1, coinInit,
      lanePos, LANE_POSITIONS, LANE_WIDTH, SCREEN_WIDTH, SCREEN_HEIGHT]
  have hD1 : coinDx playerInit coinW1 * coinDx playerInit coinW1 +
      coinDy playerInit coinW1 * coinDy playerInit coinW1 = 2500 := by
    rw [hdx1, hdy1]; norm_num
  have hdx2 : coinDx playerInit coinW2 = 60 := by
    norm_num [coinDx, playerCenter, coinCenter, playerInit, coinW2, coinInit,
      lanePos, LANE_POSITIONS, LANE_WIDTH, SCREEN_WIDTH, SCREEN_HEIGHT]
  have hdy2 : coinDy playerInit coinW2 = 80 := by
    norm_num [coinDy, playerCenter, coinCenter, playerInit, coinW2, coinInit,
      lanePos, LANE_POSITIONS, LANE_WIDTH, SCREEN_WIDTH, SCREEN_HEIGHT]
  have hD2 : coinDx playerInit coinW2 * coinDx playerInit coinW2 +
      coinDy playerInit coinW2 * coinDy playerInit coinW2 = 10000 := by
    rw [hdx2, hdy2]; norm_num
  have hq1 : oracleW.sqrtA 2500 = 50 := by norm_num [oracleW]
  have hq2 : oracleW.sqrtA 10000 = 100 := by norm_num [oracleW]
  have h1 := magnet_coin_behavior oracleW.sqrtA playerInit coinW1
    (by rw [hD1, hq1]; norm_num) (by rw [hD1, hq1]; norm_num)
  have h2 := magnet_coin_behavior oracleW.sqrtA playerInit coinW2
    (by rw [hD2, hq2]; norm_num) (by rw [hD2, hq2]; norm_num)
  have ha := h1.1 (by rw [hD1]; norm_num)
  have hcol : ((coinStep oracleW.sqrtA true playerInit coinW1).1 ||
      rectsCollide (playerRect playerInit) (coinRect coinW1)) = true := by
    rw [ha]
    simp
  have he := (h1.2.2.2.2 true false (playerRect playerInit)
    oracleW.magnetVels oracleW.coinVels 0).1 hcol
  have hb := h2.2.1 (by rw [hD2]; norm_num) (by rw [hD2]; norm_num)
  refine ⟨ha, he.1, he.2.1, he.2.2, ?_, h2.2.2.1 100⟩
  rw [hb, hD2, hq2, hdx2, hdy2]
  norm_num [coinW2, coinInit, coinCenter, lanePos, LANE_POSITIONS, LANE_WIDTH,
    SCREEN_WIDTH]

/-- Claim C7: restart_game empties all four entity collections,
deactivates the three effects and zeroes their timers, resets score,
coins collected, background scroll and every spawn timer and delay to
the initial values of Game.__init__, clears the game-over flag, and
leaves the high score unchanged (hence at least its previous value). -/
theorem restart_resets_preserving_high (s : GameState) :
    (restartGame s).obstacles = [] ∧ (restartGame s).coins = [] ∧
    (restartGame s).power_ups = [] ∧ (restartGame s).particles = [] ∧
    (restartGame s).shield_active = false ∧ (restartGame s).shield_timer = 0 ∧
    (restartGame s).magnet_active = false ∧ (restartGame s).magnet_timer = 0 ∧
    (restartGame s).double_score_active = false ∧
    (restartGame s).double_score_timer = 0 ∧
    (restartGame s).score = 0 ∧ (restartGame s).coins_collected = 0 ∧
    (restartGame s).background_y = 0 ∧
    (restartGame s).obstacle_spawn_timer = initGame.obstacle_spawn_timer ∧
    (restartGame s).obstacle_spawn_delay = initGame.obstacle_spawn_delay ∧
    (restartGame s).coin_spawn_timer = initGame.coin_spawn_timer ∧
    (restartGame s).coin_spawn_delay = initGame.coin_spawn_delay ∧
    (restartGame s).powerup_spawn_timer = initGame.powerup_spawn_timer ∧
    (restartGame s).powerup_spawn_delay = initGame.powerup_spawn_delay ∧
    (restartGame s).game_over = false ∧
    (restartGame s).player = playerInit ∧
    (restartGame s).high_score = s.high_score ∧
    s.high_score ≤ (restartGame s).high_score :=
  ⟨rfl, rfl, rfl, rfl, rfl, rfl, rfl, rfl, rfl, rfl, rfl, rfl, rfl, rfl, rfl,
   rfl, rfl, rfl, rfl, rfl, rfl, rfl, le_refl _⟩

/-- Claim C8: the obstacle spawn delay starts at 60, each obstacle spawn
event applies the ramp that subtracts exactly 0.3 while the delay is
above the floor 30 and leaves it unchanged otherwise, and in every
reachable state the delay never drops below 30 (exact rational
arithmetic). -/
theorem spawn_delay_never_below_floor :
    initGame.obstacle_spawn_delay = 60 ∧
    (∀ d : ℚ, 30 < d → nextObstacleDelay d = d - 3/10) ∧
    (∀ d : ℚ, d ≤ 30 → nextObstacleDelay d = d) ∧
    (∀ (o : Oracle) (s : GameState),
      ((s.obstacle_spawn_timer + 1 : Int) : ℚ) ≥ s.obstacle_spawn_delay →
      (stageSpawnObstacle o s).obstacle_spawn_delay =
        nextObstacleDelay s.obstacle_spawn_delay) ∧
    (∀ s : GameState, Reachable s → 30 ≤ s.obstacle_spawn_delay) := by
  refine ⟨rfl, fun d hd => if_pos hd, fun d hd => if_neg (by linarith),
    fun o s h => ?_, fun s h => dinv_lower _ (reachable_dinv h)⟩
  rw [stageSpawnObstacle_delay, if_pos h]

theorem spawn_delay_never_below_floor_witness :
    nextObstacleDelay 60 = 60 - 3/10 ∧
    nextObstacleDelay 30 = 30 ∧
    30 ≤ initGame.obstacle_spawn_delay :=
  ⟨spawn_delay_never_below_floor.2.1 60 (by norm_num),
   spawn_delay_never_below_floor.2.2.1 30 (le_refl _),
   spawn_delay_never_below_floor.2.2.2.2 initGame Reachable.init⟩

/-- Claim C9: a player at rest in lane 1 with x = 213 requesting
move-right gets target-x equal to the lane-2 center minus half the
player width, 647; the required number of frames is
ceil(|target - start| / 12) = ceil(434 / 12) = 37; after exactly 37
Player.update calls x equals target-x exactly with the moving flag
false, while one update earlier the move is still in progress. -/
theorem lane_change_converges (p : Player)
    (hw : p.width = 40) (hms : p.move_speed = 12) (hl : p.current_lane = 1)
    (hmv : p.moving = false) (hx : p.x = 213) (_ht : p.target_x = 213) :
    (moveRight p).target_x = lanePos 2 - 40 / 2 ∧
    lanePos 2 - 40 / 2 = 647 ∧
    (moveRight p).moving = true ∧
    (((moveRight p).target_x - p.x).natAbs + 12 - 1) / 12 = 37 ∧
    (playerUpdate^[37] (moveRight p)).x = 647 ∧
    (playerUpdate^[37] (moveRight p)).moving = false ∧
    (playerUpdate^[36] (moveRight p)).moving = true := by
  have hcond : p.current_lane < 2 ∧ p.moving = false := ⟨by omega, hmv⟩
  have htg : (moveRight p).target_x = lanePos 2 - 40 / 2 := by
    unfold moveRight
    rw [if_pos hcond]
    show lanePos (p.current_lane + 1) - p.width / 2 = lanePos 2 - 40 / 2
    rw [hl, hw]
  have hproj : movProj (moveRight p) = (213, 647, 12, true) := by
    unfold moveRight
    rw [if_pos hcond]
    unfold movProj
    show (p.x, lanePos (p.current_lane + 1) - p.width / 2, p.move_speed, true) =
      (213, 647, 12, true)
    rw [hx, hms, hl, hw]
    norm_num
    decide
  have h37 := movProj_iterate 37 (moveRight p)
  have h36 := movProj_iterate 36 (moveRight p)
  rw [hproj] at h37 h36
  have hc37 : movNext^[37] ((213 : Int), (647 : Int), (12 : Int), true) =
      (647, 647, 12, false) := by decide
  have hc36 : (movNext^[36] ((213 : Int), (647 : Int), (12 : Int), true)).2.2.2 =
      true := by decide
  rw [hc37] at h37
  refine ⟨htg, by decide, ?_, ?_, ?_, ?_, ?_⟩
  · unfold moveRight
    rw [if_pos hcond]
  · rw [htg, hx]
    decide
  · have := congrArg (fun q => q.1) h37
    simpa [movProj] using this
  · have := congrArg (fun q => q.2.2.2) h37
    simpa [movProj] using this
  · have := congrArg (fun q => q.2.2.2) h36
    simp only [movProj] at this
    rw [this, hc36]

def playerC9 : Player := { playerInit with x := 213, target_x := 213 }

theorem lane_change_converges_witness :
    (moveRight playerC9).target_x = lanePos 2 - 40 / 2 ∧
    (playerUpdate^[37] (moveRight playerC9)).x = 647 ∧
    (playerUpdate^[37] (moveRight playerC9)).moving = false ∧
    (playerUpdate^[36] (moveRight playerC9)).moving = true := by
  have h := lane_change_converges playerC9 rfl rfl rfl rfl rfl rfl
  exact ⟨h.1, h.2.2.2.2.1, h.2.2.2.2.2.1, h.2.2.2.2.2.2⟩

/-- Claim C10: when an unshielded obstacle collision sets the game-over
flag, the rest of that update_game call still runs: the high score is
recorded from the score at the moment of collision, the coin pass is
still applied (its collected count is added), and the idle increment is
still paid, so the end-of-frame score exceeds the recorded high score by
at least 1. -/
theorem crash_frame_still_completes (o : Oracle) (s : GameState)
    (h0 : s.game_over = false)
    (pre : List Obstacle) (ob : Obstacle) (rest : List Obstacle)
    (hobs : (preCollision o s).obstacles = pre ++ ob :: rest)
    (hpre : ∀ x ∈ pre,
      rectsCollide (playerRect (preCollision o s).player) (obstacleRect x) = false)
    (hob : rectsCollide (playerRect (preCollision o s).player) (obstacleRect ob) = true)
    (hinv : (preCollision o s).player.invulnerable = false)
    (hbeat : (preCollision o s).high_score < (preCollision o s).score) :
    (updateGame o s).game_over = true ∧
    (updateGame o s).high_score = (preCollision o s).score ∧
    (updateGame o s).coins_collected = (preCollision o s).coins_collected +
      (coinPass o.sqrtA (preCollision o s).magnet_active
        (preCollision o s).double_score_active (preCollision o s).player
        (playerRect (preCollision o s).player) o.magnetVels o.coinVels 0
        (preCollision o s).coins).2.1 ∧
    (preCollision o s).score + 1 ≤ (updateGame o s).score := by
  have hng : ¬ (s.game_over = true) := by rw [h0]; exact Bool.false_ne_true
  have hupd : updateGame o s =
      postCollision o (stageResolveObstacles o (preCollision o s)) := by
    unfold updateGame
    rw [if_neg hng]
  set s1 := preCollision o s with hs1
  have hfat := resolveObstacles_fatal o (playerRect s1.player) s1 pre ob rest
    hobs hpre hob hinv
  set s2 := stageResolveObstacles o s1 with hs2
  have hs2go : s2.game_over = true := hfat.1
  have hs2high : s2.high_score = s1.score := by
    rw [hs2]
    unfold stageResolveObstacles
    rw [hfat.2.1, if_pos hbeat]
  have hs2score : s2.score = s1.score := resolveObstacles_score o _ s1
  have hs2cc : s2.coins_collected = s1.coins_collected :=
    resolveObstacles_coins_collected o _ s1
  have hs2coins : s2.coins = s1.coins := resolveObstacles_coins o _ s1
  have hs2mag : s2.magnet_active = s1.magnet_active :=
    resolveObstacles_magnet_active o _ s1
  have hs2dbl : s2.double_score_active = s1.double_score_active :=
    resolveObstacles_double o _ s1
  have hs2pl : s2.player = s1.player := resolveObstacles_player o _ s1
  rw [hupd]
  unfold postCollision
  refine ⟨?_, ?_, ?_, ?_⟩
  · simp [hs2go]
  · simp [hs2high]
  · simp [hs2cc, hs2coins, hs2mag, hs2dbl, hs2pl]
  · have hcp := coinPass_gain_nonneg o.sqrtA s2.magnet_active s2.double_score_active
      s2.player (playerRect s2.player) o.magnetVels o.coinVels 0 s2.coins
    have hig := idleGain_ge_one (stageBackground (stagePowerups o
      (stageCoins o s2))).double_score_active
    simp only [stageIdleScore_score, stageBackground_score, stagePowerups_score,
      stageCoins_score]
    rw [hs2score] at *
    omega

theorem crash_frame_still_completes_witness :
    (updateGame oracleW sC10).game_over = true ∧
    (updateGame oracleW sC10).high_score = (preCollision oracleW sC10).score ∧
    (preCollision oracleW sC10).score + 1 ≤ (updateGame oracleW sC10).score := by
  have h := crash_frame_still_completes oracleW sC10 rfl [] obW1 []
    (by decide) (by simp) (by decide) (by decide) (by decide)
  exact ⟨h.1, h.2.1, h.2.2.2⟩
